import Mathlib

/-!
Shallow embedding of the reservation-service event-sourcing / CQRS core
(src/models.py, src/event_store.py, src/schema.py, src/main.py, src/db.py)
and proofs of the frozen claims about it.

Conventions of the embedding:

* UUID values are opaque `String`s; the freshness of `uuid4()` results is an
  explicit argument of the operations that generate ids.  Event-row primary
  keys are `Nat` surrogates.
* `datetime` values are integers (a count of hours); `timedelta(hours=h)` is
  `+ h`, and `isoformat` / `fromisoformat` are the identity on that
  representation.  `datetime.utcnow()` is an explicit `now` argument.
* `float` money amounts are integers: the code only compares them with `0`
  and stores them verbatim.
* A SQLAlchemy session's pending writes are an explicit `DBState`.  A raised
  exception (modelled as `Except.error`) aborts the logical transaction and
  leaves the previously committed state; each command entry point is one
  all-or-nothing transaction (spec section 5).
* `SELECT ... ORDER BY` is an insertion sort by the ordering key;
  `ORDER BY version DESC LIMIT 1` is the maximum of the selected column.
* PostgreSQL row-level security is modelled from the spec (`visibleRows`,
  `visibleEvents` below), since the policies are not part of src/.
-/

namespace Reservation

/-- `models.ReservationStatus` (src/models.py): the status enumeration; the
read model stores the `.value` strings. -/
inductive ReservationStatus where
  | PENDING
  | CONFIRMED
  | CANCELLED
  | COMPLETED
  | EXPIRED
deriving DecidableEq

/-- `ReservationStatus.<member>.value` (the enum is a `str` enum). -/
def ReservationStatus.value : ReservationStatus → String
  | .PENDING => "PENDING"
  | .CONFIRMED => "CONFIRMED"
  | .CANCELLED => "CANCELLED"
  | .COMPLETED => "COMPLETED"
  | .EXPIRED => "EXPIRED"

/-- `models.EventType` (src/models.py): the event-kind enumeration. -/
inductive EventType where
  | RESERVATION_CREATED
  | RESERVATION_CONFIRMED
  | RESERVATION_CANCELLED
  | RESERVATION_COMPLETED
  | RESERVATION_EXPIRED
  | PAYMENT_PROCESSED
  | PAYMENT_FAILED
deriving DecidableEq, BEq

/-- `EventType.<member>.value` (the enum is a `str` enum). -/
def EventType.value : EventType → String
  | .RESERVATION_CREATED => "RESERVATION_CREATED"
  | .RESERVATION_CONFIRMED => "RESERVATION_CONFIRMED"
  | .RESERVATION_CANCELLED => "RESERVATION_CANCELLED"
  | .RESERVATION_COMPLETED => "RESERVATION_COMPLETED"
  | .RESERVATION_EXPIRED => "RESERVATION_EXPIRED"
  | .PAYMENT_PROCESSED => "PAYMENT_PROCESSED"
  | .PAYMENT_FAILED => "PAYMENT_FAILED"

/-- The `EventType(s)` coercion: the member whose value is `s`, or `none`
where Python raises `ValueError`. -/
def EventType.ofString? (s : String) : Option EventType :=
  if s == "RESERVATION_CREATED" then some .RESERVATION_CREATED
  else if s == "RESERVATION_CONFIRMED" then some .RESERVATION_CONFIRMED
  else if s == "RESERVATION_CANCELLED" then some .RESERVATION_CANCELLED
  else if s == "RESERVATION_COMPLETED" then some .RESERVATION_COMPLETED
  else if s == "RESERVATION_EXPIRED" then some .RESERVATION_EXPIRED
  else if s == "PAYMENT_PROCESSED" then some .PAYMENT_PROCESSED
  else if s == "PAYMENT_FAILED" then some .PAYMENT_FAILED
  else none

/-- The JSON event payload (`EventModel.data`, a `dict[str, Any]`).  The keys
the code ever writes or reads are modelled as optional fields: a `none` field
is an absent key (reading it with `data[k]` is a `KeyError`, with `.get(k)` a
`None`). -/
structure EventData where
  id : Option String := none
  tenant_id : Option String := none
  user_id : Option String := none
  parking_spot_id : Option String := none
  start_time : Option Int := none
  end_time : Option Int := none
  duration_hours : Option Int := none
  total_cost : Option Int := none
  status : Option String := none
  transaction_id : Option String := none
  created_at : Option Int := none
  updated_at : Option Int := none
  reason : Option String := none
deriving DecidableEq

/-- `models.EventModel` (src/models.py): one row of the append-only
`event_store` table.  Its only database uniqueness constraint is the primary
key `id`; `__table_args__` declares `Index("idx_events_aggregate_version",
"aggregate_id", "version")`, a plain non-unique index. -/
structure EventModel where
  id : Nat
  aggregate_id : String
  aggregate_type : String := "Reservation"
  event_type : String
  version : Nat
  data : EventData
  event_metadata : Option (List (String × String)) := none
  tenant_id : String
  created_at : Int
deriving DecidableEq

/-- `models.ReservationModel` (src/models.py): one row of the `reservations`
read-model table; primary key `id`. -/
structure ReservationModel where
  id : String
  tenant_id : String
  user_id : String
  parking_spot_id : String
  start_time : Int
  end_time : Int
  duration_hours : Int
  total_cost : Int
  status : String
  transaction_id : Option String := none
  created_at : Int
  updated_at : Int
deriving DecidableEq

/-- The committed database state the service operates on: the two tables. -/
structure DBState where
  events : List EventModel
  rows : List ReservationModel
deriving DecidableEq

def emptyDB : DBState := ⟨[], []⟩

/-- Insert an element into a list sorted by the boolean relation `le`
(the building block of the `ORDER BY` embedding). -/
def insertSorted (le : α → α → Bool) (x : α) : List α → List α
  | [] => [x]
  | y :: ys => if le x y then x :: y :: ys else y :: insertSorted le x ys

/-- `SELECT ... ORDER BY`: insertion sort by `le`. -/
def sortBy (le : α → α → Bool) (l : List α) : List α :=
  l.foldr (insertSorted le) []

/-- `session.add(event)` with the table's primary-key constraint on `id`:
the insert (raised at flush/commit time) fails on a duplicate key and the
transaction leaves no partial write. -/
def insertEvent (st : DBState) (e : EventModel) : Except String DBState :=
  if st.events.any (fun e2 => e2.id == e.id) then .error "duplicate event id"
  else .ok { st with events := st.events ++ [e] }

/-- `session.add(reservation)` with the primary-key constraint on `id`. -/
def insertRow (st : DBState) (r : ReservationModel) : Except String DBState :=
  if st.rows.any (fun r2 => r2.id == r.id) then .error "duplicate reservation id"
  else .ok { st with rows := st.rows ++ [r] }

/-- `EventStore._get_next_version` (src/event_store.py lines 141-158):
`SELECT version WHERE aggregate_id = ... ORDER BY version DESC LIMIT 1` is the
maximum stored version (or `None`, giving `(result or 0)`), plus one.  This is
the read half of the read-then-write version assignment. -/
def getNextVersion (st : DBState) (aggregate_id : String) : Nat :=
  (((st.events.filter (fun e => e.aggregate_id == aggregate_id)).map
      (fun e => e.version)).foldr max 0) + 1

/-- The write half of `EventStore.append` (src/event_store.py lines 42-84):
materialize the event with an already-computed version and add it to the
session.  `append` itself is `appendWithVersion` at `getNextVersion`'s
answer; splitting the two halves makes the interleaving of two concurrent
appends expressible. -/
def appendWithVersion (st : DBState) (aggregate_id : String)
    (event_type : EventType) (data : EventData) (tenant_id : String)
    (event_metadata : Option (List (String × String))) (eventId : Nat)
    (now : Int) (version : Nat) : Except String (DBState × EventModel) :=
  let e : EventModel :=
    { id := eventId
      aggregate_id := aggregate_id
      aggregate_type := "Reservation"
      event_type := event_type.value
      version := version
      data := data
      event_metadata := event_metadata
      tenant_id := tenant_id
      created_at := now }
  (insertEvent st e).map (fun st2 => (st2, e))

/-- `EventStore.append`: read the current maximum version, then persist the
event at max + 1. -/
def append (st : DBState) (aggregate_id : String) (event_type : EventType)
    (data : EventData) (tenant_id : String)
    (event_metadata : Option (List (String × String))) (eventId : Nat)
    (now : Int) : Except String (DBState × EventModel) :=
  appendWithVersion st aggregate_id event_type data tenant_id event_metadata
    eventId now (getNextVersion st aggregate_id)

/-- `EventStore.get_events` (src/event_store.py lines 86-110): the events of
one aggregate, optionally from a starting version, ordered by version.
Written over the event table's row list so that it can also be run behind the
row-level-security filter. -/
def get_events (events : List EventModel) (aggregate_id : String)
    (from_version : Option Nat) : List EventModel :=
  sortBy (fun a b => a.version ≤ b.version)
    (match from_version with
     | none => events.filter (fun e => e.aggregate_id == aggregate_id)
     | some v => (events.filter (fun e => e.aggregate_id == aggregate_id)).filter
         (fun e => decide (v ≤ e.version)))

/-- One sequential call of `EventStore.append` with its arguments. -/
structure AppendReq where
  aggregate_id : String
  event_type : EventType
  data : EventData
  tenant_id : String
  event_metadata : Option (List (String × String)) := none
  eventId : Nat
  now : Int

/-- Run one `append` as a transaction of its own: a raised failure (the
event-id key collision) leaves no partial write. -/
def runAppend (st : DBState) (r : AppendReq) : DBState :=
  match append st r.aggregate_id r.event_type r.data r.tenant_id
      r.event_metadata r.eventId r.now with
  | .ok (st2, _) => st2
  | .error _ => st

/-- The event store after a sequence of sequential appends on an empty
store. -/
def applyAppends (reqs : List AppendReq) : DBState :=
  reqs.foldl runAppend emptyDB

/-- The stored versions of one aggregate, in insertion order. -/
def versionsOf (st : DBState) (a : String) : List Nat :=
  (st.events.filter (fun e => e.aggregate_id == a)).map (fun e => e.version)

/-- The event one `runAppend` materializes (the record `append` builds). -/
def mkAppendEvent (st : DBState) (r : AppendReq) : EventModel :=
  { id := r.eventId
    aggregate_id := r.aggregate_id
    aggregate_type := "Reservation"
    event_type := r.event_type.value
    version := getNextVersion st r.aggregate_id
    data := r.data
    event_metadata := r.event_metadata
    tenant_id := r.tenant_id
    created_at := r.now }

/-- `session.get(ReservationModel, id)`: the row with primary key `id`. -/
def findRow (st : DBState) (i : String) : Option ReservationModel :=
  st.rows.find? (fun r => r.id == i)

/-- In-place mutation of the row object `session.get` returned: every stored
row with that primary key (at most one, by the key constraint) is replaced. -/
def updateRow (st : DBState) (i : String)
    (f : ReservationModel → ReservationModel) : DBState :=
  { st with rows := st.rows.map (fun r => if r.id == i then f r else r) }

/-- `ReservationProjector._handle_reservation_created` (src/event_store.py
lines 255-275): build a row from the full snapshot payload and add it.  A
missing payload key is a `KeyError`; `transaction_id` is not read and the
column keeps its `None` default. -/
def handleReservationCreated (st : DBState) (_now : Int) (event : EventModel) :
    Except String (DBState × Option ReservationModel) :=
  match event.data.id with
  | none => .error "KeyError"
  | some i =>
  match event.data.tenant_id with
  | none => .error "KeyError"
  | some tid =>
  match event.data.user_id with
  | none => .error "KeyError"
  | some uid =>
  match event.data.parking_spot_id with
  | none => .error "KeyError"
  | some spot =>
  match event.data.start_time with
  | none => .error "KeyError"
  | some startT =>
  match event.data.end_time with
  | none => .error "KeyError"
  | some endT =>
  match event.data.duration_hours with
  | none => .error "KeyError"
  | some dur =>
  match event.data.total_cost with
  | none => .error "KeyError"
  | some cost =>
  match event.data.status with
  | none => .error "KeyError"
  | some stat =>
  match event.data.created_at with
  | none => .error "KeyError"
  | some ca =>
  match event.data.updated_at with
  | none => .error "KeyError"
  | some ua =>
  let r : ReservationModel :=
    { id := i
      tenant_id := tid
      user_id := uid
      parking_spot_id := spot
      start_time := startT
      end_time := endT
      duration_hours := dur
      total_cost := cost
      status := stat
      transaction_id := none
      created_at := ca
      updated_at := ua }
  (insertRow st r).map (fun st2 => (st2, some r))

/-- `ReservationProjector._handle_status_change` (src/event_store.py lines
277-290): look the row up by the payload's `id`; if it is absent, log and
return `None` leaving the read model untouched; otherwise set `status` from
the payload and stamp `updated_at` with the current clock. -/
def handleStatusChange (st : DBState) (now : Int) (event : EventModel) :
    Except String (DBState × Option ReservationModel) :=
  match event.data.id with
  | none => .error "KeyError"
  | some i =>
    match findRow st i with
    | none => .ok (st, none)
    | some r =>
      match event.data.status with
      | none => .error "KeyError"
      | some s =>
        .ok (updateRow st i (fun row => { row with status := s, updated_at := now }),
             some { r with status := s, updated_at := now })

/-- `str(data["transaction_id"]) if data.get("transaction_id") else None`:
Python truthiness sends both an absent key, `None` and `""` to `None`. -/
def txnOfPayload (t : Option String) : Option String :=
  match t with
  | none => none
  | some s => if s == "" then none else some s

/-- `ReservationProjector._handle_payment_processed` (src/event_store.py
lines 292-308): absent row is skipped with `None`; otherwise status becomes
`CONFIRMED`, the transaction reference is copied from the payload and
`updated_at` is stamped with the current clock. -/
def handlePaymentProcessed (st : DBState) (now : Int) (event : EventModel) :
    Except String (DBState × Option ReservationModel) :=
  match event.data.id with
  | none => .error "KeyError"
  | some i =>
    match findRow st i with
    | none => .ok (st, none)
    | some r =>
      let txn := txnOfPayload event.data.transaction_id
      .ok (updateRow st i (fun row =>
             { row with status := ReservationStatus.CONFIRMED.value,
                        transaction_id := txn, updated_at := now }),
           some { r with status := ReservationStatus.CONFIRMED.value,
                         transaction_id := txn, updated_at := now })

/-- `ReservationProjector._handle_payment_failed` (src/event_store.py lines
310-323): absent row is skipped with `None`; otherwise status becomes
`CANCELLED` and `updated_at` is stamped with the current clock. -/
def handlePaymentFailed (st : DBState) (now : Int) (event : EventModel) :
    Except String (DBState × Option ReservationModel) :=
  match event.data.id with
  | none => .error "KeyError"
  | some i =>
    match findRow st i with
    | none => .ok (st, none)
    | some r =>
      .ok (updateRow st i (fun row =>
             { row with status := ReservationStatus.CANCELLED.value,
                        updated_at := now }),
           some { r with status := ReservationStatus.CANCELLED.value,
                         updated_at := now })

/-- The type of a bound handler method in the dispatch dictionary. -/
def Handler :=
  DBState → Int → EventModel → Except String (DBState × Option ReservationModel)

/-- The `handlers` dictionary of `ReservationProjector.apply_event`
(src/event_store.py lines 238-246), in source order. -/
def handlers : List (EventType × Handler) :=
  [(.RESERVATION_CREATED, handleReservationCreated),
   (.RESERVATION_CONFIRMED, handleStatusChange),
   (.RESERVATION_CANCELLED, handleStatusChange),
   (.RESERVATION_COMPLETED, handleStatusChange),
   (.RESERVATION_EXPIRED, handleStatusChange),
   (.PAYMENT_PROCESSED, handlePaymentProcessed),
   (.PAYMENT_FAILED, handlePaymentFailed)]

/-- `ReservationProjector.apply_event` (src/event_store.py lines 227-253):
coerce the stored string with `EventType(...)` (a `ValueError` on a string
outside the enumeration), look a handler up in the dictionary, and fall back
to logging "No handler" and returning `None` when the lookup misses. -/
def applyEvent (st : DBState) (now : Int) (event : EventModel) :
    Except String (DBState × Option ReservationModel) :=
  match EventType.ofString? event.event_type with
  | none => .error ("ValueError: " ++ event.event_type)
  | some et =>
    match handlers.lookup et with
    | some h => h st now event
    | none => .ok (st, none)

/-- One iteration of the replay loop of `rebuild_from_events`: apply the
event (letting an exception propagate) and count it, applicable or not. -/
def replayStep (now : Int) (acc : DBState × Nat) (e : EventModel) :
    Except String (DBState × Nat) :=
  (applyEvent acc.1 now e).map (fun p => (p.1, acc.2 + 1))

/-- The `SELECT` of `rebuild_from_events`: every event, or one tenant's. -/
def eventsScope (tenant_id : Option String) (st : DBState) : List EventModel :=
  match tenant_id with
  | some t => st.events.filter (fun e => e.tenant_id == t)
  | none => st.events

/-- `ReservationProjector.rebuild_from_events` (src/event_store.py lines
325-362): read every event (optionally tenant-filtered) ordered by creation
time, clear the matching scope of the read model, then replay each event
through `apply_event`, counting all of them. -/
def rebuild_from_events (st : DBState) (now : Int) (tenant_id : Option String) :
    Except String (DBState × Nat) :=
  let events := sortBy (fun a b => a.created_at ≤ b.created_at)
    (eventsScope tenant_id st)
  let cleared : DBState :=
    { st with rows := match tenant_id with
        | some t => st.rows.filter (fun r => !(r.tenant_id == t))
        | none => [] }
  events.foldlM (replayStep now) (cleared, 0)

/-- A row with its `updated_at` blanked: two read models equal under this
erasure agree on every stored field except the projection clock stamp. -/
def eraseUpd (r : ReservationModel) : ReservationModel :=
  { r with updated_at := 0 }

/-- How a projection step may depend on the wall clock: run on two states
whose rows agree up to `eraseUpd` (and the same event), it raises the same
error or succeeds on both, with result rows again agreeing up to `eraseUpd`
and events untouched. -/
def HandlerBisim
    (f : DBState → Int → EventModel →
      Except String (DBState × Option ReservationModel)) : Prop :=
  ∀ (t1 t2 : Int) (e : EventModel) (s1 s2 : DBState),
    s1.events = s2.events →
    s1.rows.map eraseUpd = s2.rows.map eraseUpd →
    (∀ m, f s1 t1 e = .error m → f s2 t2 e = .error m) ∧
    (∀ p1, f s1 t1 e = .ok p1 →
      ∃ p2, f s2 t2 e = .ok p2 ∧ p1.1.events = s1.events ∧
        p2.1.events = s2.events ∧
        p2.1.rows.map eraseUpd = p1.1.rows.map eraseUpd)

/-- Modelled from the spec: the relational engine's row-filtering mechanism
(PostgreSQL row-level security) is an out-of-scope collaborator whose
policies are not in src/; per spec sections 5 and 6, with the session's
tenant set by `db.set_tenant_id`, every read of the `reservations` table
returns only the caller tenant's rows. -/
def visibleRows (tenant : String) (st : DBState) : List ReservationModel :=
  st.rows.filter (fun r => r.tenant_id == tenant)

/-- Modelled from the spec: the same row-level-security filtering applied to
reads of the `event_store` table. -/
def visibleEvents (tenant : String) (st : DBState) : List EventModel :=
  st.events.filter (fun e => e.tenant_id == tenant)

/-- `if arg: query = query.where(...)`: narrow the selection by an optional
string argument, skipped when the argument is absent or empty (falsy). -/
def optFilter (o : Option String) (p : String → α → Bool) (l : List α) :
    List α :=
  match o with
  | none => l
  | some s => if s == "" then l else l.filter (p s)

/-- The state with one tenant's events and rows removed: queries of another
tenant must not be able to tell the difference. -/
def dropTenant (a : String) (st : DBState) : DBState :=
  { events := st.events.filter (fun e => !(e.tenant_id == a))
    rows := st.rows.filter (fun r => !(r.tenant_id == a)) }

/-- `Query.reservations` (src/schema.py lines 185-221): list the (tenant's)
rows ordered by `created_at` descending, with optional status and user
filters (skipped for a falsy argument, as in Python) and offset/limit
applied after ordering. -/
def reservationsQ (st : DBState) (tenant : String) (status : Option String)
    (user_id : Option String) (limit offset : Nat) : List ReservationModel :=
  ((sortBy (fun a b => b.created_at ≤ a.created_at)
      (optFilter user_id (fun u r => r.user_id == u)
        (optFilter status (fun s r => r.status == s)
          (visibleRows tenant st)))).drop offset).take limit

/-- `Query.reservation_by_id` (src/schema.py lines 223-233): the (tenant's)
row with the given id, or `None`. -/
def reservationByIdQ (st : DBState) (tenant : String) (i : String) :
    Option ReservationModel :=
  (visibleRows tenant st).find? (fun r => r.id == i)

/-- `Query.reservations_by_user` (src/schema.py lines 235-263): the
(tenant's) rows of one user, restricted to PENDING/CONFIRMED unless
`include_completed`, ordered by `start_time` descending. -/
def reservationsByUserQ (st : DBState) (tenant : String) (user_id : String)
    (include_completed : Bool) : List ReservationModel :=
  sortBy (fun a b => b.start_time ≤ a.start_time)
    (if include_completed then
      (visibleRows tenant st).filter (fun r => r.user_id == user_id)
     else
      ((visibleRows tenant st).filter (fun r => r.user_id == user_id)).filter
        (fun r =>
          r.status == ReservationStatus.PENDING.value ||
          r.status == ReservationStatus.CONFIRMED.value))

/-- The overlap conflict query built identically by
`Query.check_availability` (src/schema.py lines 319-338) and
`Mutation.create_reservation` (src/schema.py lines 447-465): PENDING or
CONFIRMED rows of the same parking spot whose window intersects
`[startT, endT)`. -/
def overlapConflicts (st : DBState) (tenant : String) (parking_spot_id : String)
    (startT endT : Int) : List ReservationModel :=
  (visibleRows tenant st).filter (fun r =>
    r.parking_spot_id == parking_spot_id &&
    (r.status == ReservationStatus.PENDING.value ||
     r.status == ReservationStatus.CONFIRMED.value) &&
    decide (r.start_time < endT) && decide (r.end_time > startT))

/-- `schema.AvailabilityResult`. -/
structure AvailabilityResult where
  available : Bool
  conflicts : Option (List String) := none
deriving DecidableEq

/-- `Query.check_availability` (src/schema.py lines 304-344). -/
def checkAvailabilityQ (st : DBState) (tenant : String)
    (parking_spot_id : String) (start_time : Int) (duration_hours : Int) :
    AvailabilityResult :=
  let endT := start_time + duration_hours
  let conflicts := overlapConflicts st tenant parking_spot_id start_time endT
  if conflicts.isEmpty then { available := true, conflicts := none }
  else { available := false, conflicts := some (conflicts.map (fun c => c.id)) }

/-- `schema.ReservationStats`. -/
structure ReservationStats where
  total_reservations : Nat
  active_reservations : Nat
  completed_reservations : Nat
  cancelled_reservations : Nat
deriving DecidableEq

/-- `Query.reservation_stats` (src/schema.py lines 346-384): counts by
status over the (tenant's) rows. -/
def reservationStatsQ (st : DBState) (tenant : String) : ReservationStats :=
  let vis := visibleRows tenant st
  { total_reservations := vis.length
    active_reservations := vis.countP (fun r =>
      r.status == ReservationStatus.PENDING.value ||
      r.status == ReservationStatus.CONFIRMED.value)
    completed_reservations := vis.countP (fun r =>
      r.status == ReservationStatus.COMPLETED.value)
    cancelled_reservations := vis.countP (fun r =>
      r.status == ReservationStatus.CANCELLED.value) }

/-- `Query.events_by_reservation` (src/schema.py lines 386-400):
`EventStore.get_events` run on the session, whose event reads the row-level
security scopes to the tenant. -/
def eventsByReservationQ (st : DBState) (tenant : String)
    (reservation_id : String) : List EventModel :=
  get_events (visibleEvents tenant st) reservation_id none

/-- `schema.CreateReservationInput` with `start_time` already through
`datetime.fromisoformat`. -/
structure CreateReservationInput where
  user_id : String
  parking_spot_id : String
  start_time : Int
  duration_hours : Int
  total_cost : Int
deriving DecidableEq

/-- `event_store.ReservationAggregate.__init__` (src/event_store.py lines
161-191): pure construction; `end_time = start_time + duration`, status
starts PENDING, both timestamps are the construction clock. -/
structure ReservationAggregate where
  id : String
  tenant_id : String
  user_id : String
  parking_spot_id : String
  start_time : Int
  end_time : Int
  duration_hours : Int
  total_cost : Int
  status : String
  transaction_id : Option String
  created_at : Int
  updated_at : Int

def initAggregate (id tenant_id user_id parking_spot_id : String)
    (start_time : Int) (duration_hours : Int) (total_cost : Int) (now : Int) :
    ReservationAggregate :=
  { id := id
    tenant_id := tenant_id
    user_id := user_id
    parking_spot_id := parking_spot_id
    start_time := start_time
    end_time := start_time + duration_hours
    duration_hours := duration_hours
    total_cost := total_cost
    status := ReservationStatus.PENDING.value
    transaction_id := none
    created_at := now
    updated_at := now }

/-- `ReservationAggregate.to_event_data` (src/event_store.py lines 193-208):
the full snapshot payload; every key is present. -/
def to_event_data (a : ReservationAggregate) : EventData :=
  { id := some a.id
    tenant_id := some a.tenant_id
    user_id := some a.user_id
    parking_spot_id := some a.parking_spot_id
    start_time := some a.start_time
    end_time := some a.end_time
    duration_hours := some a.duration_hours
    total_cost := some a.total_cost
    status := some a.status
    transaction_id := a.transaction_id
    created_at := some a.created_at
    updated_at := some a.updated_at }

/-- The conflict error message of `Mutation.create_reservation`
(src/schema.py lines 467-471): it interpolates only the number of
conflicting rows. -/
def conflictMessage (n : Nat) : String :=
  "Parking spot is not available for the requested time slot. " ++
  "Conflicts with " ++ toString n ++ " existing reservation(s)."

/-- `Mutation.create_reservation` (src/schema.py lines 412-515): validate,
check availability, build the aggregate, append the creation event, project
it, commit.  A raised error before the commit rolls the transaction back to
`st`; the returned pair is (committed state, result). -/
def create_reservation (st : DBState) (tenant : String)
    (input : CreateReservationInput) (newId : String) (eventId : Nat)
    (now : Int) : DBState × Except String ReservationModel :=
  let startT := input.start_time
  let endT := startT + input.duration_hours
  if input.duration_hours ≤ 0 then (st, .error "Duration must be positive")
  else if 24 < input.duration_hours then
    (st, .error "Maximum reservation duration is 24 hours")
  else if input.total_cost < 0 then (st, .error "Total cost cannot be negative")
  else
    let conflicts := overlapConflicts st tenant input.parking_spot_id startT endT
    if !conflicts.isEmpty then (st, .error (conflictMessage conflicts.length))
    else
      let aggregate := initAggregate newId tenant input.user_id
        input.parking_spot_id startT input.duration_hours input.total_cost now
      let meta := [("user_id", input.user_id), ("source", "graphql_mutation")]
      match append st newId .RESERVATION_CREATED (to_event_data aggregate)
          tenant (some meta) eventId now with
      | .error m => (st, .error m)
      | .ok (st1, event) =>
        match applyEvent st1 now event with
        | .error m => (st, .error m)
        | .ok (st2, some r) => (st2, .ok r)
        | .ok (st2, none) =>
          -- db.commit() precedes the `if not reservation` check, so this
          -- branch (unreachable for a creation event) would persist st2.
          (st2, .error "Failed to create reservation")

/-- `Mutation.confirm_reservation` (src/schema.py lines 517-572): require an
existing (tenant-visible) PENDING row, append a PAYMENT_PROCESSED event
carrying {id, status: CONFIRMED, transaction_id}, project it, commit, and
return the refreshed row. -/
def confirm_reservation (st : DBState) (tenant : String) (i : String)
    (transaction_id : Option String) (eventId : Nat) (now : Int) :
    DBState × Except String ReservationModel :=
  match (visibleRows tenant st).find? (fun r => r.id == i) with
  | none => (st, .error "Reservation not found")
  | some r =>
    if !(r.status == ReservationStatus.PENDING.value) then
      (st, .error ("Cannot confirm reservation with status: " ++ r.status))
    else
      let d : EventData :=
        { id := some i
          status := some ReservationStatus.CONFIRMED.value
          transaction_id := transaction_id }
      match append st i .PAYMENT_PROCESSED d tenant
          (some [("source", "graphql_mutation")]) eventId now with
      | .error m => (st, .error m)
      | .ok (st1, event) =>
        match applyEvent st1 now event with
        | .error m => (st, .error m)
        | .ok (st2, _) =>
          (st2,
           match findRow st2 i with
           | some r2 => .ok r2
           | none => .error "refresh failed")

/-- `Mutation.cancel_reservation` (src/schema.py lines 574-632): require an
existing PENDING or CONFIRMED row, append a RESERVATION_CANCELLED event
carrying {id, status: CANCELLED, reason}, project it, commit. -/
def cancel_reservation (st : DBState) (tenant : String) (i : String)
    (reason : Option String) (eventId : Nat) (now : Int) :
    DBState × Except String ReservationModel :=
  match (visibleRows tenant st).find? (fun r => r.id == i) with
  | none => (st, .error "Reservation not found")
  | some r =>
    if !(r.status == ReservationStatus.PENDING.value ||
         r.status == ReservationStatus.CONFIRMED.value) then
      (st, .error ("Cannot cancel reservation with status: " ++ r.status))
    else
      let d : EventData :=
        { id := some i
          status := some ReservationStatus.CANCELLED.value
          reason := reason }
      match append st i .RESERVATION_CANCELLED d tenant
          (some [("source", "graphql_mutation")]) eventId now with
      | .error m => (st, .error m)
      | .ok (st1, event) =>
        match applyEvent st1 now event with
        | .error m => (st, .error m)
        | .ok (st2, _) =>
          (st2,
           match findRow st2 i with
           | some r2 => .ok r2
           | none => .error "refresh failed")

/-- `Mutation.complete_reservation` (src/schema.py lines 634-682): require an
existing CONFIRMED row, append a RESERVATION_COMPLETED event carrying
{id, status: COMPLETED}, project it, commit. -/
def complete_reservation (st : DBState) (tenant : String) (i : String)
    (eventId : Nat) (now : Int) : DBState × Except String ReservationModel :=
  match (visibleRows tenant st).find? (fun r => r.id == i) with
  | none => (st, .error "Reservation not found")
  | some r =>
    if !(r.status == ReservationStatus.CONFIRMED.value) then
      (st, .error ("Cannot complete reservation with status: " ++ r.status))
    else
      let d : EventData :=
        { id := some i
          status := some ReservationStatus.COMPLETED.value }
      match append st i .RESERVATION_COMPLETED d tenant
          (some [("source", "graphql_mutation")]) eventId now with
      | .error m => (st, .error m)
      | .ok (st1, event) =>
        match applyEvent st1 now event with
        | .error m => (st, .error m)
        | .ok (st2, _) =>
          (st2,
           match findRow st2 i with
           | some r2 => .ok r2
           | none => .error "refresh failed")

/-- One invocation of a command entry point, with the request-scoped
environment (tenant context, generated uuid4 ids, wall clock) made explicit. -/
inductive Cmd where
  | create (tenant : String) (input : CreateReservationInput) (newId : String)
      (eventId : Nat) (now : Int)
  | confirm (tenant : String) (i : String) (transaction_id : Option String)
      (eventId : Nat) (now : Int)
  | cancel (tenant : String) (i : String) (reason : Option String)
      (eventId : Nat) (now : Int)
  | complete (tenant : String) (i : String) (eventId : Nat) (now : Int)

/-- Run one command entry point against the committed state; a rejected
command leaves the state as the mutation's rollback does. -/
def execCmd (st : DBState) : Cmd → DBState
  | .create tenant input newId eventId now =>
    (create_reservation st tenant input newId eventId now).1
  | .confirm tenant i txn eventId now =>
    (confirm_reservation st tenant i txn eventId now).1
  | .cancel tenant i reason eventId now =>
    (cancel_reservation st tenant i reason eventId now).1
  | .complete tenant i eventId now =>
    (complete_reservation st tenant i eventId now).1

/-- The committed state after a sequence of command entry points starting
from an empty database. -/
def execCmds (cmds : List Cmd) : DBState :=
  cmds.foldl execCmd emptyDB

/-- The status of a read-model row as a query would observe it. -/
def statusOf (st : DBState) (i : String) : Option String :=
  (findRow st i).map (fun r => r.status)

/-- The legal status edges of spec section 4.3:
pending -> {confirmed, cancelled, expired}; confirmed -> {completed,
cancelled}; completed, cancelled and expired are terminal. -/
def legalEdge (a b : String) : Bool :=
  (a == ReservationStatus.PENDING.value &&
    (b == ReservationStatus.CONFIRMED.value ||
     b == ReservationStatus.CANCELLED.value ||
     b == ReservationStatus.EXPIRED.value)) ||
  (a == ReservationStatus.CONFIRMED.value &&
    (b == ReservationStatus.COMPLETED.value ||
     b == ReservationStatus.CANCELLED.value))

/-- Terminal statuses of spec section 4.3. -/
def isTerminal (s : String) : Bool :=
  s == ReservationStatus.COMPLETED.value ||
  s == ReservationStatus.CANCELLED.value ||
  s == ReservationStatus.EXPIRED.value

/-- How one command may move one row's observed status: left unchanged,
created as PENDING, or along a legal edge. -/
def LegalChange : Option String → Option String → Prop
  | none, none => True
  | none, some s => s = ReservationStatus.PENDING.value
  | some s, some s2 => s2 = s ∨ legalEdge s s2 = true
  | some _, none => False

/-- The read-model row a successful `create_reservation` inserts: the
creation snapshot of `initAggregate`, projected by
`_handle_reservation_created`. -/
def createdRow (tenant : String) (input : CreateReservationInput)
    (newId : String) (now : Int) : ReservationModel :=
  { id := newId
    tenant_id := tenant
    user_id := input.user_id
    parking_spot_id := input.parking_spot_id
    start_time := input.start_time
    end_time := input.start_time + input.duration_hours
    duration_hours := input.duration_hours
    total_cost := input.total_cost
    status := ReservationStatus.PENDING.value
    transaction_id := none
    created_at := now
    updated_at := now }

/-- `main.ReservationStatsResponse` (src/main.py): note its `active` bucket
counts only CONFIRMED rows, unlike the GraphQL `reservation_stats`. -/
structure ReservationStatsResponse where
  total_reservations : Nat
  active_reservations : Nat
  pending_reservations : Nat
  completed_reservations : Nat
deriving DecidableEq

/-- `main.DEFAULT_TENANT_ID`. -/
def DEFAULT_TENANT_ID : String := "00000000-0000-0000-0000-000000000001"

/-- The counting body of `main.get_reservation_stats` (src/main.py lines
343-366). -/
def reservationStatsCore (st : DBState) (tenant : String) :
    ReservationStatsResponse :=
  let base := visibleRows tenant st
  { total_reservations := base.length
    active_reservations := base.countP (fun r =>
      r.status == ReservationStatus.CONFIRMED.value)
    pending_reservations := base.countP (fun r =>
      r.status == ReservationStatus.PENDING.value)
    completed_reservations := base.countP (fun r =>
      r.status == ReservationStatus.COMPLETED.value) }

/-- `main.get_reservation_stats` (src/main.py lines 317-374): everything runs
inside `try`; the database work may raise (modelled by an `Except`-valued
session), the `X-Tenant-ID` header may be absent or empty (falsy, replaced by
the default tenant), and `except Exception` turns any failure into an all-zero
successful response. -/
def get_reservation_stats (db : Except String DBState)
    (headerTenant : Option String) : ReservationStatsResponse :=
  match db with
  | .error _ =>
    { total_reservations := 0
      active_reservations := 0
      pending_reservations := 0
      completed_reservations := 0 }
  | .ok st =>
    let tenant := match headerTenant with
      | some t => if t == "" then DEFAULT_TENANT_ID else t
      | none => DEFAULT_TENANT_ID
    reservationStatsCore st tenant

/-- Whether `needle` is a leading run of `hay` (on character lists). -/
def leadsWith : List Char → List Char → Bool
  | [], _ => true
  | _ :: _, [] => false
  | a :: as, b :: bs => a == b && leadsWith as bs

/-- Whether `needle` occurs contiguously in `hay` (on character lists). -/
def hasSub (needle : List Char) : List Char → Bool
  | [] => needle.isEmpty
  | c :: rest => leadsWith needle (c :: rest) || hasSub needle rest

/-- Whether the string `pat` occurs in `s` (used to state what an error
message does or does not carry). -/
def strContains (s pat : String) : Bool :=
  hasSub pat.data s.data

/-! ### Concrete scenario data used by witnesses and counterexamples -/

def demoTenant : String := "6f1b2a3c-0d4e-4f5a-8b6c-7d8e9f0a1b2c"

def demoAggregateId : String := "b7e2f9c4-3a51-4d20-9e77-5c8a1b6d2f03"

/-- Two `append` calls for the same aggregate executing concurrently against
an empty store, interleaved as read1, read2, write1, write2: both
transactions run `_get_next_version` (the read) before either adds its event
(the write).  Nothing in src/ prevents this schedule: the session pair
`(aggregate_id, version)` carries only a non-unique index and no lock or
conflicting-write check is taken. -/
def raceState : Except String DBState :=
  let v1 := getNextVersion emptyDB demoAggregateId
  let v2 := getNextVersion emptyDB demoAggregateId
  match appendWithVersion emptyDB demoAggregateId .RESERVATION_CREATED {}
      demoTenant none 101 0 v1 with
  | .error m => .error m
  | .ok (st1, _) =>
    match appendWithVersion st1 demoAggregateId .RESERVATION_CREATED {}
        demoTenant none 102 0 v2 with
    | .error m => .error m
    | .ok (st2, _) => .ok st2

/-- A committed PENDING reservation on spot-1 over hours [0, 2). -/
def demoRow : ReservationModel :=
  { id := demoAggregateId
    tenant_id := demoTenant
    user_id := "9a8b7c6d-5e4f-4a3b-8c2d-1e0f9a8b7c6d"
    parking_spot_id := "spot-1"
    start_time := 0
    end_time := 2
    duration_hours := 2
    total_cost := 5
    status := "PENDING"
    transaction_id := none
    created_at := 0
    updated_at := 0 }

def demoSt : DBState := ⟨[], [demoRow]⟩

/-- A create request overlapping `demoRow` (start one hour in). -/
def demoOverlapInput : CreateReservationInput :=
  { user_id := "2c3d4e5f-6a7b-4c8d-9e0f-1a2b3c4d5e6f"
    parking_spot_id := "spot-1"
    start_time := 1
    duration_hours := 2
    total_cost := 5 }

def otherTenant : String := "0d9e8f7a-6b5c-4d3e-8f2a-1b0c9d8e7f6a"

/-- A reservation belonging to the other tenant. -/
def otherRow : ReservationModel :=
  { demoRow with
      id := "e4f5a6b7-c8d9-4e0f-8a1b-2c3d4e5f6a7b"
      tenant_id := otherTenant }

/-- A database holding one reservation of each tenant. -/
def twoTenantSt : DBState := ⟨[], [demoRow, otherRow]⟩

/-- A status-change event whose payload references an aggregate id with no
read-model row. -/
def c8MissingEvent : EventModel :=
  { id := 21
    aggregate_id := "f0e1d2c3-b4a5-4968-8776-655443322110"
    event_type := "RESERVATION_CANCELLED"
    version := 1
    data := { id := some "f0e1d2c3-b4a5-4968-8776-655443322110"
              status := some "CANCELLED" }
    tenant_id := demoTenant
    created_at := 5 }

/-- A creation event for a second aggregate, as `create_reservation` would
persist it. -/
def c8CreationEvent : EventModel :=
  { id := 20
    aggregate_id := "a9b8c7d6-e5f4-4321-9876-543210fedcba"
    event_type := "RESERVATION_CREATED"
    version := 1
    data := to_event_data (initAggregate "a9b8c7d6-e5f4-4321-9876-543210fedcba"
      demoTenant "9a8b7c6d-5e4f-4a3b-8c2d-1e0f9a8b7c6d" "spot-9" 0 2 5 0)
    tenant_id := demoTenant
    created_at := 1 }

/-- An event log holding the creation event and, later, the status change
that references a missing row. -/
def c8Log : DBState := ⟨[c8CreationEvent, c8MissingEvent], []⟩

/-- The read-model row the replay of `c8Log` materializes. -/
def c8Row : ReservationModel :=
  { id := "a9b8c7d6-e5f4-4321-9876-543210fedcba"
    tenant_id := demoTenant
    user_id := "9a8b7c6d-5e4f-4a3b-8c2d-1e0f9a8b7c6d"
    parking_spot_id := "spot-9"
    start_time := 0
    end_time := 2
    duration_hours := 2
    total_cost := 5
    status := "PENDING"
    transaction_id := none
    created_at := 0
    updated_at := 0 }

/-- The creation event of the rebuild scenario (aggregate c2, created at 1). -/
def c2CreateEvent : EventModel :=
  { id := 30
    aggregate_id := "18f3a5c7-9b2d-4e6f-8a0c-2d4f6a8c0e21"
    event_type := "RESERVATION_CREATED"
    version := 1
    data := to_event_data (initAggregate "18f3a5c7-9b2d-4e6f-8a0c-2d4f6a8c0e21"
      demoTenant "9a8b7c6d-5e4f-4a3b-8c2d-1e0f9a8b7c6d" "spot-3" 0 2 5 0)
    tenant_id := demoTenant
    created_at := 1 }

/-- A later cancellation of the same aggregate (created at 5). -/
def c2CancelEvent : EventModel :=
  { id := 31
    aggregate_id := "18f3a5c7-9b2d-4e6f-8a0c-2d4f6a8c0e21"
    event_type := "RESERVATION_CANCELLED"
    version := 2
    data := { id := some "18f3a5c7-9b2d-4e6f-8a0c-2d4f6a8c0e21"
              status := some "CANCELLED" }
    tenant_id := demoTenant
    created_at := 5 }

/-- An event log whose replay touches a row with a non-creation event. -/
def c2Log : DBState := ⟨[c2CreateEvent, c2CancelEvent], []⟩

/-- The row the replay of `c2Log` leaves, as a function of the rebuild's
wall-clock instant (stamped into `updated_at` by the status change). -/
def c2RowAt (t : Int) : ReservationModel :=
  { id := "18f3a5c7-9b2d-4e6f-8a0c-2d4f6a8c0e21"
    tenant_id := demoTenant
    user_id := "9a8b7c6d-5e4f-4a3b-8c2d-1e0f9a8b7c6d"
    parking_spot_id := "spot-3"
    start_time := 0
    end_time := 2
    duration_hours := 2
    total_cost := 5
    status := "CANCELLED"
    transaction_id := none
    created_at := 0
    updated_at := t }

/-- A create request with no conflicts, used to drive the command
scenario. -/
def c7Input : CreateReservationInput :=
  { user_id := "2c3d4e5f-6a7b-4c8d-9e0f-1a2b3c4d5e6f"
    parking_spot_id := "spot-7"
    start_time := 0
    duration_hours := 2
    total_cost := 5 }

def c7Id : String := "77aa88bb-99cc-4dde-8eff-001122334455"

/-- Create a reservation, then cancel it: the row ends CANCELLED, a terminal
status. -/
def c7Cmds : List Cmd :=
  [Cmd.create demoTenant c7Input c7Id 41 0,
   Cmd.cancel demoTenant c7Id none 42 1]

/-! ### General lemmas about the `ORDER BY` embedding -/

theorem mem_insertSorted (le : α → α → Bool) (x a : α) (l : List α) :
    a ∈ insertSorted le x l ↔ a = x ∨ a ∈ l := by
  induction l with
  | nil => simp [insertSorted]
  | cons y ys ih =>
    simp only [insertSorted]
    split
    · simp
    · simp only [List.mem_cons, ih]
      tauto

theorem mem_sortBy (le : α → α → Bool) (a : α) (l : List α) :
    a ∈ sortBy le l ↔ a ∈ l := by
  induction l with
  | nil => simp [sortBy]
  | cons y ys ih =>
    simp only [sortBy, List.foldr_cons] at *
    rw [mem_insertSorted, ih]
    simp

theorem length_insertSorted (le : α → α → Bool) (x : α) (l : List α) :
    (insertSorted le x l).length = l.length + 1 := by
  induction l with
  | nil => rfl
  | cons y ys ih =>
    simp only [insertSorted]
    split
    · rfl
    · simp [ih]

theorem length_sortBy (le : α → α → Bool) (l : List α) :
    (sortBy le l).length = l.length := by
  induction l with
  | nil => rfl
  | cons y ys ih =>
    simp only [sortBy, List.foldr_cons] at *
    rw [length_insertSorted, ih]
    rfl

/-! ### Lemmas about tenant filtering -/

theorem filter_key_drop_other {α : Type} (key : α → String) (a b : String)
    (h : a ≠ b) (l : List α) :
    (l.filter (fun x => !(key x == a))).filter (fun x => key x == b) =
      l.filter (fun x => key x == b) := by
  induction l with
  | nil => rfl
  | cons x xs ih =>
    simp only [List.filter_cons]
    by_cases hb : key x = b
    · have ha : key x ≠ a := fun hxa => h (by rw [← hxa, hb])
      simp [ha, hb, ih, Ne.symm h]
    · by_cases ha : key x = a
      · simp [ha, hb, ih, h]
      · simp [ha, hb, ih]

theorem mem_visibleRows {r : ReservationModel} {tenant : String}
    {st : DBState} (h : r ∈ visibleRows tenant st) : r.tenant_id = tenant :=
  eq_of_beq (List.mem_filter.mp h).2

theorem mem_visibleEvents {e : EventModel} {tenant : String} {st : DBState}
    (h : e ∈ visibleEvents tenant st) : e.tenant_id = tenant :=
  eq_of_beq (List.mem_filter.mp h).2

theorem mem_optFilter {o : Option String} {p : String → α → Bool}
    {l : List α} {x : α} (h : x ∈ optFilter o p l) : x ∈ l := by
  cases o with
  | none => exact h
  | some s =>
    simp only [optFilter] at h
    split at h
    · exact h
    · exact List.mem_of_mem_filter h

theorem visibleRows_dropTenant (a b : String) (h : a ≠ b) (st : DBState) :
    visibleRows b (dropTenant a st) = visibleRows b st := by
  show (st.rows.filter (fun r => !(r.tenant_id == a))).filter
      (fun r => r.tenant_id == b) = st.rows.filter (fun r => r.tenant_id == b)
  exact filter_key_drop_other (fun r => r.tenant_id) a b h st.rows

theorem visibleEvents_dropTenant (a b : String) (h : a ≠ b) (st : DBState) :
    visibleEvents b (dropTenant a st) = visibleEvents b st := by
  show (st.events.filter (fun e => !(e.tenant_id == a))).filter
      (fun e => e.tenant_id == b) = st.events.filter (fun e => e.tenant_id == b)
  exact filter_key_drop_other (fun e => e.tenant_id) a b h st.events

/-! ### Lemmas for the version invariant -/

theorem foldr_max_range' :
    ∀ (n s : Nat), (List.range' s n).foldr max 0 =
      if n = 0 then 0 else s + n - 1 := by
  intro n
  induction n with
  | zero => intro s; rfl
  | succ m ih =>
    intro s
    rw [List.range'_succ, List.foldr_cons, ih (s + 1)]
    cases m with
    | zero => simp
    | succ k =>
      rw [if_neg (Nat.succ_ne_zero k), if_neg (Nat.succ_ne_zero (k + 1)),
        Nat.max_eq_right (by omega)]
      omega

theorem getNextVersion_eq (st : DBState) (a : String)
    (h : versionsOf st a = List.range' 1 (versionsOf st a).length) :
    getNextVersion st a = (versionsOf st a).length + 1 := by
  show (versionsOf st a).foldr max 0 + 1 = (versionsOf st a).length + 1
  conv_lhs => rw [h]
  rw [foldr_max_range']
  split <;> omega

theorem versionsOf_append_event (st : DBState) (e : EventModel) (a : String) :
    versionsOf { st with events := st.events ++ [e] } a =
      versionsOf st a ++
        (if e.aggregate_id == a then [e.version] else []) := by
  show ((st.events ++ [e]).filter (fun x => x.aggregate_id == a)).map
      (fun x => x.version) = _
  rw [List.filter_append, List.map_append]
  congr 1
  by_cases hA : e.aggregate_id = a
  · simp [hA]
  · simp [hA]

theorem runAppend_shape (st : DBState) (r : AppendReq) :
    runAppend st r = st ∨
    runAppend st r =
      { st with events := st.events ++ [mkAppendEvent st r] } := by
  unfold runAppend append appendWithVersion insertEvent
  by_cases hdup : (st.events.any fun e2 => e2.id == r.eventId) = true
  · left
    simp [hdup, Except.map]
  · right
    simp [hdup, Except.map, mkAppendEvent]

theorem range'_one_snoc (L : Nat) :
    List.range' 1 L ++ [L + 1] = List.range' 1 (L + 1) := by
  rw [List.range'_1_concat]
  congr 2
  omega

theorem versionsOf_runAppend (st : DBState) (r : AppendReq)
    (h : ∀ a, versionsOf st a = List.range' 1 (versionsOf st a).length) :
    ∀ a, versionsOf (runAppend st r) a =
      List.range' 1 (versionsOf (runAppend st r) a).length := by
  intro a
  rcases runAppend_shape st r with heq | heq
  · rw [heq]; exact h a
  · rw [heq, versionsOf_append_event]
    by_cases hA : r.aggregate_id = a
    · subst hA
      have hb : ((mkAppendEvent st r).aggregate_id == r.aggregate_id) = true := by
        simp [mkAppendEvent]
      rw [if_pos hb]
      have hl := h r.aggregate_id
      have hv : (mkAppendEvent st r).version =
          (versionsOf st r.aggregate_id).length + 1 := by
        show getNextVersion st r.aggregate_id = _
        exact getNextVersion_eq st r.aggregate_id hl
      rw [hv, List.length_append, List.length_singleton]
      conv_lhs => rw [hl]
      rw [List.length_range']
      exact range'_one_snoc _
    · have hb : ((mkAppendEvent st r).aggregate_id == a) = false := by
        simp [mkAppendEvent]
        exact hA
      rw [if_neg (by rw [hb]; exact Bool.false_ne_true), List.append_nil]
      exact h a

theorem versionsOf_foldl (reqs : List AppendReq) :
    ∀ (st : DBState),
      (∀ a, versionsOf st a = List.range' 1 (versionsOf st a).length) →
      ∀ a, versionsOf (reqs.foldl runAppend st) a =
        List.range' 1 (versionsOf (reqs.foldl runAppend st) a).length := by
  induction reqs with
  | nil => intro st h; exact h
  | cons r rs ih => intro st h; exact ih _ (versionsOf_runAppend st r h)

theorem versionsOf_applyAppends (reqs : List AppendReq) :
    ∀ a, versionsOf (applyAppends reqs) a =
      List.range' 1 (versionsOf (applyAppends reqs) a).length :=
  versionsOf_foldl reqs emptyDB (fun _ => rfl)

/-! ### Lemmas for sorted output -/

theorem sortBy_of_pairwise (le : α → α → Bool) :
    ∀ (l : List α), l.Pairwise (fun a b => le a b = true) → sortBy le l = l := by
  intro l
  induction l with
  | nil => intro _; rfl
  | cons x xs ih =>
    intro h
    show insertSorted le x (sortBy le xs) = x :: xs
    rw [ih (List.pairwise_cons.mp h).2]
    cases xs with
    | nil => rfl
    | cons y ys =>
      show insertSorted le x (y :: ys) = _
      unfold insertSorted
      rw [if_pos ((List.pairwise_cons.mp h).1 y (List.mem_cons_self y ys))]

theorem filter_ge_eq_drop :
    ∀ (l : List EventModel) (s L v : Nat),
      l.map (fun e => e.version) = List.range' s L →
      l.filter (fun e => decide (v ≤ e.version)) = l.drop (v - s) := by
  intro l
  induction l with
  | nil => intro s L v _; simp
  | cons e es ih =>
    intro s L v h
    cases L with
    | zero => simp at h
    | succ K =>
      rw [List.range'_succ] at h
      rw [List.map_cons] at h
      have he : e.version = s := (List.cons_eq_cons.mp h).1
      have hes : es.map (fun e => e.version) = List.range' (s + 1) K :=
        (List.cons_eq_cons.mp h).2
      rw [List.filter_cons]
      by_cases hv : v ≤ e.version
      · rw [if_pos (by simpa using hv)]
        have h0 : v - s = 0 := by omega
        have h1 : v - (s + 1) = 0 := by omega
        rw [h0, List.drop_zero, ih (s + 1) K v hes, h1, List.drop_zero]
      · rw [if_neg (by simpa using hv)]
        have h2 : v - s = (v - (s + 1)) + 1 := by omega
        rw [ih (s + 1) K v hes, h2, List.drop_succ_cons]

/-! ### Lemmas for projection determinism up to `updated_at` -/

theorem map_id_of_map_erase {l1 l2 : List ReservationModel}
    (h : l1.map eraseUpd = l2.map eraseUpd) :
    l1.map (fun r => r.id) = l2.map (fun r => r.id) := by
  induction l1 generalizing l2 with
  | nil =>
    cases l2 with
    | nil => rfl
    | cons r2 rest2 => simp at h
  | cons r1 rest1 ih =>
    cases l2 with
    | nil => simp at h
    | cons r2 rest2 =>
      simp only [List.map_cons, List.cons_eq_cons] at h ⊢
      exact ⟨congrArg (fun r => r.id) h.1, ih h.2⟩

theorem any_id_of_map_erase {l1 l2 : List ReservationModel}
    (h : l1.map eraseUpd = l2.map eraseUpd) (i : String) :
    l1.any (fun r => r.id == i) = l2.any (fun r => r.id == i) := by
  have hm := map_id_of_map_erase h
  induction l1 generalizing l2 with
  | nil =>
    cases l2 with
    | nil => rfl
    | cons r2 rest2 => simp at hm
  | cons r1 rest1 ih =>
    cases l2 with
    | nil => simp at hm
    | cons r2 rest2 =>
      simp only [List.map_cons, List.cons_eq_cons] at hm h
      simp only [List.any_cons, hm.1, ih h.2 hm.2]

theorem find?_id_of_map_erase {l1 l2 : List ReservationModel}
    (h : l1.map eraseUpd = l2.map eraseUpd) (i : String) :
    Option.map eraseUpd (l1.find? (fun r => r.id == i)) =
    Option.map eraseUpd (l2.find? (fun r => r.id == i)) := by
  induction l1 generalizing l2 with
  | nil =>
    cases l2 with
    | nil => rfl
    | cons r2 rest2 => simp at h
  | cons r1 rest1 ih =>
    cases l2 with
    | nil => simp at h
    | cons r2 rest2 =>
      simp only [List.map_cons, List.cons_eq_cons] at h
      have hid : r1.id = r2.id := congrArg (fun r => r.id) h.1
      rw [List.find?_cons, List.find?_cons, hid]
      cases hb : (r2.id == i) with
      | true => simpa using congrArg some h.1
      | false => exact ih h.2

theorem map_erase_update_bisim {l1 l2 : List ReservationModel}
    (h : l1.map eraseUpd = l2.map eraseUpd) (i : String)
    (f g : ReservationModel → ReservationModel)
    (hfg : ∀ r1 r2, eraseUpd r1 = eraseUpd r2 →
      eraseUpd (f r1) = eraseUpd (g r2)) :
    (l1.map (fun r => if r.id == i then f r else r)).map eraseUpd =
    (l2.map (fun r => if r.id == i then g r else r)).map eraseUpd := by
  induction l1 generalizing l2 with
  | nil =>
    cases l2 with
    | nil => rfl
    | cons r2 rest2 => simp at h
  | cons r1 rest1 ih =>
    cases l2 with
    | nil => simp at h
    | cons r2 rest2 =>
      simp only [List.map_cons, List.cons_eq_cons] at h ⊢
      have hid : r1.id = r2.id := congrArg (fun r => r.id) h.1
      refine ⟨?_, ih h.2⟩
      rw [hid]
      cases hb : (r2.id == i) with
      | true => simpa using hfg r1 r2 h.1
      | false => simpa using h.1

theorem handleReservationCreated_shape (e : EventModel) :
    (∀ (st : DBState) (t : Int),
      handleReservationCreated st t e = .error "KeyError") ∨
    (∃ r : ReservationModel, ∀ (st : DBState) (t : Int),
      handleReservationCreated st t e =
        (insertRow st r).map (fun st2 => (st2, some r))) := by
  cases hid : e.data.id with
  | none =>
    exact Or.inl fun st t => by simp only [handleReservationCreated, hid]
  | some i =>
  cases htid : e.data.tenant_id with
  | none =>
    exact Or.inl fun st t => by simp only [handleReservationCreated, hid, htid]
  | some tid =>
  cases huid : e.data.user_id with
  | none =>
    exact Or.inl fun st t => by
      simp only [handleReservationCreated, hid, htid, huid]
  | some uid =>
  cases hspot : e.data.parking_spot_id with
  | none =>
    exact Or.inl fun st t => by
      simp only [handleReservationCreated, hid, htid, huid, hspot]
  | some spot =>
  cases hst : e.data.start_time with
  | none =>
    exact Or.inl fun st t => by
      simp only [handleReservationCreated, hid, htid, huid, hspot, hst]
  | some startT =>
  cases hen : e.data.end_time with
  | none =>
    exact Or.inl fun st t => by
      simp only [handleReservationCreated, hid, htid, huid, hspot, hst, hen]
  | some endT =>
  cases hdur : e.data.duration_hours with
  | none =>
    exact Or.inl fun st t => by
      simp only [handleReservationCreated, hid, htid, huid, hspot, hst, hen,
        hdur]
  | some dur =>
  cases hcost : e.data.total_cost with
  | none =>
    exact Or.inl fun st t => by
      simp only [handleReservationCreated, hid, htid, huid, hspot, hst, hen,
        hdur, hcost]
  | some cost =>
  cases hstat : e.data.status with
  | none =>
    exact Or.inl fun st t => by
      simp only [handleReservationCreated, hid, htid, huid, hspot, hst, hen,
        hdur, hcost, hstat]
  | some stat =>
  cases hca : e.data.created_at with
  | none =>
    exact Or.inl fun st t => by
      simp only [handleReservationCreated, hid, htid, huid, hspot, hst, hen,
        hdur, hcost, hstat, hca]
  | some ca =>
  cases hua : e.data.updated_at with
  | none =>
    exact Or.inl fun st t => by
      simp only [handleReservationCreated, hid, htid, huid, hspot, hst, hen,
        hdur, hcost, hstat, hca, hua]
  | some ua =>
    refine Or.inr ⟨?_, fun st t => ?_⟩
    · exact
        { id := i
          tenant_id := tid
          user_id := uid
          parking_spot_id := spot
          start_time := startT
          end_time := endT
          duration_hours := dur
          total_cost := cost
          status := stat
          transaction_id := none
          created_at := ca
          updated_at := ua }
    · simp only [handleReservationCreated, hid, htid, huid, hspot, hst, hen,
        hdur, hcost, hstat, hca, hua]

theorem handleReservationCreated_bisim : HandlerBisim handleReservationCreated := by
  intro t1 t2 e s1 s2 hev hrows
  rcases handleReservationCreated_shape e with herr | ⟨r, hok⟩
  · constructor
    · intro m h
      rw [herr s1 t1] at h
      rw [herr s2 t2]
      exact h
    · intro p1 h
      rw [herr s1 t1] at h
      exact Except.noConfusion h
  · have hany := any_id_of_map_erase hrows r.id
    constructor
    · intro m h
      rw [hok s1 t1] at h
      rw [hok s2 t2]
      unfold insertRow at h ⊢
      by_cases hdup : (s1.rows.any fun r2 => r2.id == r.id) = true
      · rw [if_pos hdup] at h
        rw [if_pos (by rw [← hany]; exact hdup)]
        simp only [Except.map] at h ⊢
        exact h
      · rw [if_neg hdup] at h
        simp only [Except.map] at h
        exact Except.noConfusion h
    · intro p1 h
      rw [hok s1 t1] at h
      unfold insertRow at h
      by_cases hdup : (s1.rows.any fun r2 => r2.id == r.id) = true
      · rw [if_pos hdup] at h
        simp only [Except.map] at h
        exact Except.noConfusion h
      · rw [if_neg hdup] at h
        simp only [Except.map] at h
        injection h with h'
        refine ⟨({ s2 with rows := s2.rows ++ [r] }, some r), ?_, ?_, ?_, ?_⟩
        · rw [hok s2 t2]
          unfold insertRow
          rw [if_neg (by rw [← hany]; exact hdup)]
          simp only [Except.map]
        · rw [← h']
        · rfl
        · rw [← h']
          show (s2.rows ++ [r]).map eraseUpd = (s1.rows ++ [r]).map eraseUpd
          rw [List.map_append, List.map_append, hrows]

theorem handleStatusChange_bisim : HandlerBisim handleStatusChange := by
  intro t1 t2 e s1 s2 hev hrows
  cases hid : e.data.id with
  | none =>
    constructor
    · intro m h
      simp only [handleStatusChange, hid] at h ⊢
      exact h
    · intro p1 h
      simp only [handleStatusChange, hid] at h
      exact Except.noConfusion h
  | some i =>
    have hfind := find?_id_of_map_erase hrows i
    cases hf1 : s1.rows.find? (fun r => r.id == i) with
    | none =>
      have hf2 : s2.rows.find? (fun r => r.id == i) = none := by
        rw [hf1] at hfind
        cases hf2x : s2.rows.find? (fun r => r.id == i) with
        | none => rfl
        | some r2 => rw [hf2x] at hfind; simp at hfind
      constructor
      · intro m h
        simp only [handleStatusChange, hid, findRow, hf1] at h
        exact Except.noConfusion h
      · intro p1 h
        simp only [handleStatusChange, hid, findRow, hf1] at h
        injection h with h'
        refine ⟨(s2, none), ?_, ?_, ?_, ?_⟩
        · simp only [handleStatusChange, hid, findRow, hf2]
        · rw [← h']
        · rfl
        · rw [← h']
          exact hrows.symm
    | some r1 =>
      rw [hf1] at hfind
      cases hf2 : s2.rows.find? (fun r => r.id == i) with
      | none => rw [hf2] at hfind; simp at hfind
      | some r2 =>
        rw [hf2] at hfind
        have her : eraseUpd r1 = eraseUpd r2 := by
          simpa using hfind
        cases hst : e.data.status with
        | none =>
          constructor
          · intro m h
            simp only [handleStatusChange, hid, findRow, hf1, hst] at h
            simp only [handleStatusChange, hid, findRow, hf2, hst]
            exact h
          · intro p1 h
            simp only [handleStatusChange, hid, findRow, hf1, hst] at h
            exact Except.noConfusion h
        | some sv =>
          constructor
          · intro m h
            simp only [handleStatusChange, hid, findRow, hf1, hst] at h
            exact Except.noConfusion h
          · intro p1 h
            simp only [handleStatusChange, hid, findRow, hf1, hst] at h
            injection h with h'
            refine ⟨(updateRow s2 i
                (fun row => { row with status := sv, updated_at := t2 }),
              some { r2 with status := sv, updated_at := t2 }), ?_, ?_, ?_, ?_⟩
            · simp only [handleStatusChange, hid, findRow, hf2, hst]
            · rw [← h']
              rfl
            · rfl
            · rw [← h']
              show (updateRow s2 i _).rows.map eraseUpd =
                (updateRow s1 i _).rows.map eraseUpd
              exact map_erase_update_bisim hrows.symm i _ _
                (fun x y hxy => congrArg (fun r => { r with status := sv }) hxy)

theorem handlePaymentProcessed_bisim : HandlerBisim handlePaymentProcessed := by
  intro t1 t2 e s1 s2 hev hrows
  cases hid : e.data.id with
  | none =>
    constructor
    · intro m h
      simp only [handlePaymentProcessed, hid] at h ⊢
      exact h
    · intro p1 h
      simp only [handlePaymentProcessed, hid] at h
      exact Except.noConfusion h
  | some i =>
    have hfind := find?_id_of_map_erase hrows i
    cases hf1 : s1.rows.find? (fun r => r.id == i) with
    | none =>
      have hf2 : s2.rows.find? (fun r => r.id == i) = none := by
        rw [hf1] at hfind
        cases hf2x : s2.rows.find? (fun r => r.id == i) with
        | none => rfl
        | some r2 => rw [hf2x] at hfind; simp at hfind
      constructor
      · intro m h
        simp only [handlePaymentProcessed, hid, findRow, hf1] at h
        exact Except.noConfusion h
      · intro p1 h
        simp only [handlePaymentProcessed, hid, findRow, hf1] at h
        injection h with h'
        refine ⟨(s2, none), ?_, ?_, ?_, ?_⟩
        · simp only [handlePaymentProcessed, hid, findRow, hf2]
        · rw [← h']
        · rfl
        · rw [← h']
          exact hrows.symm
    | some r1 =>
      rw [hf1] at hfind
      cases hf2 : s2.rows.find? (fun r => r.id == i) with
      | none => rw [hf2] at hfind; simp at hfind
      | some r2 =>
        rw [hf2] at hfind
        have her : eraseUpd r1 = eraseUpd r2 := by
          simpa using hfind
        constructor
        · intro m h
          simp only [handlePaymentProcessed, hid, findRow, hf1] at h
          exact Except.noConfusion h
        · intro p1 h
          simp only [handlePaymentProcessed, hid, findRow, hf1] at h
          injection h with h'
          refine ⟨(updateRow s2 i (fun row =>
              { row with
                  status := ReservationStatus.CONFIRMED.value
                  transaction_id := txnOfPayload e.data.transaction_id
                  updated_at := t2 }),
            some { r2 with
                     status := ReservationStatus.CONFIRMED.value
                     transaction_id := txnOfPayload e.data.transaction_id
                     updated_at := t2 }), ?_, ?_, ?_, ?_⟩
          · simp only [handlePaymentProcessed, hid, findRow, hf2]
          · rw [← h']
            rfl
          · rfl
          · rw [← h']
            show (updateRow s2 i _).rows.map eraseUpd =
              (updateRow s1 i _).rows.map eraseUpd
            exact map_erase_update_bisim hrows.symm i _ _
              (fun x y hxy => congrArg (fun r =>
                { r with
                    status := ReservationStatus.CONFIRMED.value
                    transaction_id := txnOfPayload e.data.transaction_id }) hxy)

theorem handlePaymentFailed_bisim : HandlerBisim handlePaymentFailed := by
  intro t1 t2 e s1 s2 hev hrows
  cases hid : e.data.id with
  | none =>
    constructor
    · intro m h
      simp only [handlePaymentFailed, hid] at h ⊢
      exact h
    · intro p1 h
      simp only [handlePaymentFailed, hid] at h
      exact Except.noConfusion h
  | some i =>
    have hfind := find?_id_of_map_erase hrows i
    cases hf1 : s1.rows.find? (fun r => r.id == i) with
    | none =>
      have hf2 : s2.rows.find? (fun r => r.id == i) = none := by
        rw [hf1] at hfind
        cases hf2x : s2.rows.find? (fun r => r.id == i) with
        | none => rfl
        | some r2 => rw [hf2x] at hfind; simp at hfind
      constructor
      · intro m h
        simp only [handlePaymentFailed, hid, findRow, hf1] at h
        exact Except.noConfusion h
      · intro p1 h
        simp only [handlePaymentFailed, hid, findRow, hf1] at h
        injection h with h'
        refine ⟨(s2, none), ?_, ?_, ?_, ?_⟩
        · simp only [handlePaymentFailed, hid, findRow, hf2]
        · rw [← h']
        · rfl
        · rw [← h']
          exact hrows.symm
    | some r1 =>
      rw [hf1] at hfind
      cases hf2 : s2.rows.find? (fun r => r.id == i) with
      | none => rw [hf2] at hfind; simp at hfind
      | some r2 =>
        rw [hf2] at hfind
        have her : eraseUpd r1 = eraseUpd r2 := by
          simpa using hfind
        constructor
        · intro m h
          simp only [handlePaymentFailed, hid, findRow, hf1] at h
          exact Except.noConfusion h
        · intro p1 h
          simp only [handlePaymentFailed, hid, findRow, hf1] at h
          injection h with h'
          refine ⟨(updateRow s2 i (fun row =>
              { row with
                  status := ReservationStatus.CANCELLED.value
                  updated_at := t2 }),
            some { r2 with
                     status := ReservationStatus.CANCELLED.value
                     updated_at := t2 }), ?_, ?_, ?_, ?_⟩
          · simp only [handlePaymentFailed, hid, findRow, hf2]
          · rw [← h']
            rfl
          · rfl
          · rw [← h']
            show (updateRow s2 i _).rows.map eraseUpd =
              (updateRow s1 i _).rows.map eraseUpd
            exact map_erase_update_bisim hrows.symm i _ _
              (fun x y hxy => congrArg (fun r =>
                { r with status := ReservationStatus.CANCELLED.value }) hxy)

theorem applyEvent_bisim : HandlerBisim applyEvent := by
  intro t1 t2 e s1 s2 hev hrows
  cases hty : EventType.ofString? e.event_type with
  | none =>
    constructor
    · intro m h
      unfold applyEvent at h ⊢
      rw [hty] at h ⊢
      exact h
    · intro p1 h
      unfold applyEvent at h
      rw [hty] at h
      exact Except.noConfusion h
  | some et =>
    have hred : ∀ (s : DBState) (t : Int), applyEvent s t e =
        (match handlers.lookup et with
         | some h => h s t e
         | none => .ok (s, none)) := by
      intro s t
      unfold applyEvent
      rw [hty]
    cases et with
    | RESERVATION_CREATED =>
      constructor
      · intro m h
        rw [hred s1 t1] at h
        rw [hred s2 t2]
        exact (handleReservationCreated_bisim t1 t2 e s1 s2 hev hrows).1 m h
      · intro p1 h
        rw [hred s1 t1] at h
        obtain ⟨p2, h2, hp1, hp2, hpr⟩ :=
          (handleReservationCreated_bisim t1 t2 e s1 s2 hev hrows).2 p1 h
        exact ⟨p2, by rw [hred s2 t2]; exact h2, hp1, hp2, hpr⟩
    | RESERVATION_CONFIRMED =>
      constructor
      · intro m h
        rw [hred s1 t1] at h
        rw [hred s2 t2]
        exact (handleStatusChange_bisim t1 t2 e s1 s2 hev hrows).1 m h
      · intro p1 h
        rw [hred s1 t1] at h
        obtain ⟨p2, h2, hp1, hp2, hpr⟩ :=
          (handleStatusChange_bisim t1 t2 e s1 s2 hev hrows).2 p1 h
        exact ⟨p2, by rw [hred s2 t2]; exact h2, hp1, hp2, hpr⟩
    | RESERVATION_CANCELLED =>
      constructor
      · intro m h
        rw [hred s1 t1] at h
        rw [hred s2 t2]
        exact (handleStatusChange_bisim t1 t2 e s1 s2 hev hrows).1 m h
      · intro p1 h
        rw [hred s1 t1] at h
        obtain ⟨p2, h2, hp1, hp2, hpr⟩ :=
          (handleStatusChange_bisim t1 t2 e s1 s2 hev hrows).2 p1 h
        exact ⟨p2, by rw [hred s2 t2]; exact h2, hp1, hp2, hpr⟩
    | RESERVATION_COMPLETED =>
      constructor
      · intro m h
        rw [hred s1 t1] at h
        rw [hred s2 t2]
        exact (handleStatusChange_bisim t1 t2 e s1 s2 hev hrows).1 m h
      · intro p1 h
        rw [hred s1 t1] at h
        obtain ⟨p2, h2, hp1, hp2, hpr⟩ :=
          (handleStatusChange_bisim t1 t2 e s1 s2 hev hrows).2 p1 h
        exact ⟨p2, by rw [hred s2 t2]; exact h2, hp1, hp2, hpr⟩
    | RESERVATION_EXPIRED =>
      constructor
      · intro m h
        rw [hred s1 t1] at h
        rw [hred s2 t2]
        exact (handleStatusChange_bisim t1 t2 e s1 s2 hev hrows).1 m h
      · intro p1 h
        rw [hred s1 t1] at h
        obtain ⟨p2, h2, hp1, hp2, hpr⟩ :=
          (handleStatusChange_bisim t1 t2 e s1 s2 hev hrows).2 p1 h
        exact ⟨p2, by rw [hred s2 t2]; exact h2, hp1, hp2, hpr⟩
    | PAYMENT_PROCESSED =>
      constructor
      · intro m h
        rw [hred s1 t1] at h
        rw [hred s2 t2]
        exact (handlePaymentProcessed_bisim t1 t2 e s1 s2 hev hrows).1 m h
      · intro p1 h
        rw [hred s1 t1] at h
        obtain ⟨p2, h2, hp1, hp2, hpr⟩ :=
          (handlePaymentProcessed_bisim t1 t2 e s1 s2 hev hrows).2 p1 h
        exact ⟨p2, by rw [hred s2 t2]; exact h2, hp1, hp2, hpr⟩
    | PAYMENT_FAILED =>
      constructor
      · intro m h
        rw [hred s1 t1] at h
        rw [hred s2 t2]
        exact (handlePaymentFailed_bisim t1 t2 e s1 s2 hev hrows).1 m h
      · intro p1 h
        rw [hred s1 t1] at h
        obtain ⟨p2, h2, hp1, hp2, hpr⟩ :=
          (handlePaymentFailed_bisim t1 t2 e s1 s2 hev hrows).2 p1 h
        exact ⟨p2, by rw [hred s2 t2]; exact h2, hp1, hp2, hpr⟩

theorem foldReplay_bisim (t1 t2 : Int) :
    ∀ (l : List EventModel) (a1 a2 : DBState × Nat),
      a1.1.events = a2.1.events →
      a1.1.rows.map eraseUpd = a2.1.rows.map eraseUpd →
      a1.2 = a2.2 →
      ∀ p1, l.foldlM (replayStep t1) a1 = .ok p1 →
        ∃ p2, l.foldlM (replayStep t2) a2 = .ok p2 ∧
          p1.1.events = a1.1.events ∧ p2.1.events = a2.1.events ∧
          p2.1.rows.map eraseUpd = p1.1.rows.map eraseUpd ∧ p2.2 = p1.2 := by
  intro l
  induction l with
  | nil =>
    intro a1 a2 hev hrows hc p1 h
    simp only [List.foldlM] at h
    cases h
    exact ⟨a2, rfl, rfl, rfl, hrows.symm, hc.symm⟩
  | cons e es ih =>
    intro a1 a2 hev hrows hc p1 h
    rw [List.foldlM_cons] at h
    cases hstep : replayStep t1 a1 e with
    | error m =>
      rw [hstep] at h
      simp [Bind.bind, Except.bind] at h
    | ok b1 =>
      rw [hstep] at h
      simp only [Bind.bind, Except.bind] at h
      unfold replayStep at hstep
      cases happ : applyEvent a1.1 t1 e with
      | error m =>
        rw [happ] at hstep
        simp [Except.map] at hstep
      | ok q1 =>
        rw [happ] at hstep
        simp only [Except.map] at hstep
        injection hstep with hb1
        obtain ⟨q2, happ2, hq1ev, hq2ev, hqrows⟩ :=
          (applyEvent_bisim t1 t2 e a1.1 a2.1 hev hrows).2 q1 happ
        have hstep2 : replayStep t2 a2 e = .ok (q2.1, a2.2 + 1) := by
          unfold replayStep
          rw [happ2]
          rfl
        have hb1' : b1 = (q1.1, a1.2 + 1) := hb1.symm
        subst hb1'
        obtain ⟨p2, hfold2, hpev1, hpev2, hprows, hpc⟩ :=
          ih (q1.1, a1.2 + 1) (q2.1, a2.2 + 1)
            (hq1ev.trans (hev.trans hq2ev.symm)) hqrows.symm
            (by simp [hc]) p1 h
        refine ⟨p2, ?_, ?_, ?_, ?_, ?_⟩
        · rw [List.foldlM_cons, hstep2]
          simpa [Bind.bind, Except.bind] using hfold2
        · exact hpev1.trans hq1ev
        · exact hpev2.trans hq2ev
        · exact hprows
        · exact hpc

/-- The tenant-unscoped rebuild, written out: replay the whole ordered log
over the cleared read model. -/
theorem rebuild_none_eq (st : DBState) (t : Int) :
    rebuild_from_events st t none =
      (sortBy (fun a b => a.created_at ≤ b.created_at) st.events).foldlM
        (replayStep t) (({ st with rows := [] } : DBState), 0) := rfl

/-! ### Lemmas about the replay loop -/

theorem replay_count :
    ∀ (l : List EventModel) (now : Int) (acc : DBState × Nat)
      (st2 : DBState) (n : Nat),
      l.foldlM (replayStep now) acc = .ok (st2, n) → n = acc.2 + l.length := by
  intro l
  induction l with
  | nil =>
    intro now acc st2 n h
    simp only [List.foldlM] at h
    cases h
    simp
  | cons e es ih =>
    intro now acc st2 n h
    rw [List.foldlM_cons] at h
    cases hstep : replayStep now acc e with
    | error m =>
      rw [hstep] at h
      simp [Bind.bind, Except.bind] at h
    | ok acc2 =>
      rw [hstep] at h
      simp only [Bind.bind, Except.bind] at h
      have hn := ih now acc2 st2 n h
      have hacc2 : acc2.2 = acc.2 + 1 := by
        unfold replayStep at hstep
        cases happ : applyEvent acc.1 now e with
        | error m => rw [happ] at hstep; simp [Except.map] at hstep
        | ok p =>
          rw [happ] at hstep
          simp only [Except.map] at hstep
          cases hstep
          rfl
      rw [hn, hacc2, List.length_cons]
      omega

/-! ### C8 -/

/-- C8: a non-creation event (the four status changes, payment processed,
payment failed) whose payload references an id with no read-model row makes
the Projector return `None` without raising and with the state untouched;
and a successful replay counts every event of its scope, skipped ones
included. -/
theorem c8_missing_row_is_skipped_and_counted :
    (∀ (st : DBState) (now : Int) (e : EventModel) (rid : String),
      (e.event_type = "RESERVATION_CONFIRMED" ∨
       e.event_type = "RESERVATION_CANCELLED" ∨
       e.event_type = "RESERVATION_COMPLETED" ∨
       e.event_type = "RESERVATION_EXPIRED" ∨
       e.event_type = "PAYMENT_PROCESSED" ∨
       e.event_type = "PAYMENT_FAILED") →
      e.data.id = some rid →
      findRow st rid = none →
      applyEvent st now e = .ok (st, none)) ∧
    (∀ (st : DBState) (now : Int) (tenant : Option String) (st2 : DBState)
      (n : Nat),
      rebuild_from_events st now tenant = .ok (st2, n) →
      n = (eventsScope tenant st).length) := by
  constructor
  · intro st now e rid htype hid hfr
    rcases htype with h|h|h|h|h|h
    · unfold applyEvent
      rw [h]
      show handleStatusChange st now e = .ok (st, none)
      simp only [handleStatusChange, hid, hfr]
    · unfold applyEvent
      rw [h]
      show handleStatusChange st now e = .ok (st, none)
      simp only [handleStatusChange, hid, hfr]
    · unfold applyEvent
      rw [h]
      show handleStatusChange st now e = .ok (st, none)
      simp only [handleStatusChange, hid, hfr]
    · unfold applyEvent
      rw [h]
      show handleStatusChange st now e = .ok (st, none)
      simp only [handleStatusChange, hid, hfr]
    · unfold applyEvent
      rw [h]
      show handlePaymentProcessed st now e = .ok (st, none)
      simp only [handlePaymentProcessed, hid, hfr]
    · unfold applyEvent
      rw [h]
      show handlePaymentFailed st now e = .ok (st, none)
      simp only [handlePaymentFailed, hid, hfr]
  · intro st now tenant st2 n h
    unfold rebuild_from_events at h
    have hc := replay_count _ now _ st2 n h
    rw [length_sortBy] at hc
    simpa using hc

/-- C8 witness: the concrete cancelled event referencing a missing row is
skipped with `None` and no state change, and the replay of the two-event log
containing it still succeeds and counts both events. -/
theorem c8_missing_row_is_skipped_and_counted_witness :
    applyEvent emptyDB 0 c8MissingEvent = .ok (emptyDB, none) ∧
    rebuild_from_events c8Log 9 none = .ok (⟨c8Log.events, [c8Row]⟩, 2) ∧
    (2 : Nat) = (eventsScope none c8Log).length :=
  ⟨(c8_missing_row_is_skipped_and_counted).1 emptyDB 0 c8MissingEvent
      "f0e1d2c3-b4a5-4968-8776-655443322110"
      (Or.inr (Or.inl rfl)) rfl rfl,
   rfl,
   (c8_missing_row_is_skipped_and_counted).2 c8Log 9 none
     ⟨c8Log.events, [c8Row]⟩ 2 rfl⟩

/-! ### Lemmas about rows keyed by their primary id -/

theorem find?_eq_of_mem_nodup {l : List ReservationModel}
    {r : ReservationModel} {i : String}
    (hnd : (l.map (fun x => x.id)).Nodup) (hmem : r ∈ l) (hid : r.id = i) :
    l.find? (fun x => x.id == i) = some r := by
  induction l with
  | nil => cases hmem
  | cons x xs ih =>
    rw [List.map_cons, List.nodup_cons] at hnd
    rw [List.find?_cons]
    rcases List.mem_cons.mp hmem with rfl | hmem2
    · have : (r.id == i) = true := by simp [hid]
      rw [this]
    · cases hpx : (x.id == i) with
      | true =>
        exfalso
        apply hnd.1
        have hx : x.id = i := eq_of_beq hpx
        have : r.id ∈ xs.map (fun x => x.id) :=
          List.mem_map_of_mem _ hmem2
        rwa [hid, ← hx] at this
      | false => exact ih hnd.2 hmem2

theorem find?_map_of_id_kept (l : List ReservationModel)
    (g : ReservationModel → ReservationModel)
    (hg : ∀ r, (g r).id = r.id) (j : String) :
    (l.map g).find? (fun x => x.id == j) =
      (l.find? (fun x => x.id == j)).map g := by
  induction l with
  | nil => rfl
  | cons x xs ih =>
    rw [List.map_cons, List.find?_cons, List.find?_cons, hg x]
    cases hpx : (x.id == j) with
    | true => rfl
    | false => exact ih

theorem map_id_of_update (l : List ReservationModel) (i : String)
    (f : ReservationModel → ReservationModel) (hf : ∀ r, (f r).id = r.id) :
    (l.map (fun r => if r.id == i then f r else r)).map (fun r => r.id) =
      l.map (fun r => r.id) := by
  induction l with
  | nil => rfl
  | cons x xs ih =>
    rw [List.map_cons, List.map_cons, List.map_cons, ih]
    congr 1
    by_cases hx : (x.id == i) = true
    · rw [if_pos hx, hf x]
    · rw [if_neg hx]

theorem legalChange_refl (o : Option String) : LegalChange o o := by
  cases o with
  | none => trivial
  | some s => exact Or.inl rfl

theorem terminal_no_edge (s : String) (h : isTerminal s = true)
    (s2 : String) : legalEdge s s2 = false := by
  have hs : (s = ReservationStatus.COMPLETED.value ∨
      s = ReservationStatus.CANCELLED.value) ∨
      s = ReservationStatus.EXPIRED.value := by
    unfold isTerminal at h
    simpa using h
  rcases hs with (rfl | rfl) | rfl <;> rfl

theorem ofString?_value (et : EventType) :
    EventType.ofString? et.value = some et := by
  cases et <;> rfl

theorem lookup_handlers (et : EventType) :
    handlers.lookup et = some (match et with
      | .RESERVATION_CREATED => handleReservationCreated
      | .RESERVATION_CONFIRMED => handleStatusChange
      | .RESERVATION_CANCELLED => handleStatusChange
      | .RESERVATION_COMPLETED => handleStatusChange
      | .RESERVATION_EXPIRED => handleStatusChange
      | .PAYMENT_PROCESSED => handlePaymentProcessed
      | .PAYMENT_FAILED => handlePaymentFailed) := by
  cases et <;> rfl

theorem create_shape (st : DBState) (tenant : String)
    (input : CreateReservationInput) (newId : String) (eid : Nat)
    (now : Int) :
    (create_reservation st tenant input newId eid now).1.rows = st.rows ∨
    ((st.rows.any fun r2 => r2.id == newId) = false ∧
      (create_reservation st tenant input newId eid now).1.rows =
        st.rows ++ [createdRow tenant input newId now]) := by
  unfold create_reservation
  split_ifs with h1 h2 h3
  · exact Or.inl rfl
  · exact Or.inl rfl
  · exact Or.inl rfl
  by_cases hconf : (overlapConflicts st tenant input.parking_spot_id
      input.start_time (input.start_time + input.duration_hours)).isEmpty =
      true
  case neg =>
    have hconf' : (overlapConflicts st tenant input.parking_spot_id
        input.start_time (input.start_time + input.duration_hours)).isEmpty =
        false := by
      simpa using hconf
    left
    simp only [hconf', Bool.not_false, if_true]
  case pos =>
    simp only [hconf, Bool.not_true, Bool.false_eq_true, if_false]
    unfold append appendWithVersion insertEvent
    by_cases hdup : (st.events.any fun e2 => e2.id == eid) = true
    · left
      simp only [hdup, if_true, Except.map]
    · simp only [hdup, Bool.false_eq_true, if_false, Except.map]
      simp only [applyEvent, ofString?_value, lookup_handlers]
      simp only [handleReservationCreated, to_event_data, initAggregate]
      unfold insertRow
      by_cases hdup2 : (st.rows.any fun r2 => r2.id == newId) = true
      · left
        simp only [hdup2, if_true, Except.map]
      · right
        have hdup2' : (st.rows.any fun r2 => r2.id == newId) = false := by
          simpa using hdup2
        refine ⟨hdup2', ?_⟩
        simp only [hdup2, Bool.false_eq_true, if_false, Except.map,
          createdRow]

theorem confirm_shape (st : DBState) (tenant i : String)
    (txn : Option String) (eid : Nat) (now : Int) :
    (confirm_reservation st tenant i txn eid now).1.rows = st.rows ∨
    (∃ r, r ∈ st.rows ∧ r.id = i ∧
      r.status = ReservationStatus.PENDING.value ∧
      (confirm_reservation st tenant i txn eid now).1.rows =
        st.rows.map (fun row => if row.id == i then
          { row with
              status := ReservationStatus.CONFIRMED.value
              transaction_id := txnOfPayload txn
              updated_at := now } else row)) := by
  unfold confirm_reservation
  cases hfind : (visibleRows tenant st).find? (fun r => r.id == i) with
  | none => exact Or.inl rfl
  | some r =>
    have hmem : r ∈ st.rows :=
      List.mem_of_mem_filter (List.mem_of_find?_eq_some hfind)
    have hbeq := List.find?_some hfind
    have hid : r.id = i := eq_of_beq hbeq
    by_cases hguard : (r.status == ReservationStatus.PENDING.value) = true
    case neg =>
      have hg : (r.status == ReservationStatus.PENDING.value) = false := by
        simpa using hguard
      left
      simp only [hg, Bool.not_false, if_true]
    case pos =>
      have hstat : r.status = ReservationStatus.PENDING.value :=
        eq_of_beq hguard
      simp only [hguard, Bool.not_true, Bool.false_eq_true, if_false]
      unfold append appendWithVersion insertEvent
      by_cases hdup : (st.events.any fun e2 => e2.id == eid) = true
      · left
        simp only [hdup, if_true, Except.map]
      · simp only [hdup, Bool.false_eq_true, if_false, Except.map]
        simp only [applyEvent, ofString?_value, lookup_handlers]
        simp only [handlePaymentProcessed, findRow]
        cases hg2 : st.rows.find? (fun r2 => r2.id == i) with
        | none =>
          left
          simp only [hg2]
        | some rr =>
          right
          refine ⟨r, hmem, hid, hstat, ?_⟩
          simp only [hg2, updateRow]

theorem cancel_shape (st : DBState) (tenant i : String)
    (reason : Option String) (eid : Nat) (now : Int) :
    (cancel_reservation st tenant i reason eid now).1.rows = st.rows ∨
    (∃ r, r ∈ st.rows ∧ r.id = i ∧
      (r.status = ReservationStatus.PENDING.value ∨
       r.status = ReservationStatus.CONFIRMED.value) ∧
      (cancel_reservation st tenant i reason eid now).1.rows =
        st.rows.map (fun row => if row.id == i then
          { row with
              status := ReservationStatus.CANCELLED.value
              updated_at := now } else row)) := by
  unfold cancel_reservation
  cases hfind : (visibleRows tenant st).find? (fun r => r.id == i) with
  | none => exact Or.inl rfl
  | some r =>
    have hmem : r ∈ st.rows :=
      List.mem_of_mem_filter (List.mem_of_find?_eq_some hfind)
    have hbeq := List.find?_some hfind
    have hid : r.id = i := eq_of_beq hbeq
    by_cases hguard : (r.status == ReservationStatus.PENDING.value ||
        r.status == ReservationStatus.CONFIRMED.value) = true
    case neg =>
      have hg : (r.status == ReservationStatus.PENDING.value ||
          r.status == ReservationStatus.CONFIRMED.value) = false := by
        simpa using hguard
      left
      simp only [hg, Bool.not_false, if_true]
    case pos =>
      have hstat : r.status = ReservationStatus.PENDING.value ∨
          r.status = ReservationStatus.CONFIRMED.value := by
        rcases Bool.or_eq_true_iff.mp hguard with h | h
        · exact Or.inl (eq_of_beq h)
        · exact Or.inr (eq_of_beq h)
      simp only [hguard, Bool.not_true, Bool.false_eq_true, if_false]
      unfold append appendWithVersion insertEvent
      by_cases hdup : (st.events.any fun e2 => e2.id == eid) = true
      · left
        simp only [hdup, if_true, Except.map]
      · simp only [hdup, Bool.false_eq_true, if_false, Except.map]
        simp only [applyEvent, ofString?_value, lookup_handlers]
        simp only [handleStatusChange, findRow]
        cases hg2 : st.rows.find? (fun r2 => r2.id == i) with
        | none =>
          left
          simp only [hg2]
        | some rr =>
          right
          refine ⟨r, hmem, hid, hstat, ?_⟩
          simp only [hg2, updateRow]

theorem complete_shape (st : DBState) (tenant i : String) (eid : Nat)
    (now : Int) :
    (complete_reservation st tenant i eid now).1.rows = st.rows ∨
    (∃ r, r ∈ st.rows ∧ r.id = i ∧
      r.status = ReservationStatus.CONFIRMED.value ∧
      (complete_reservation st tenant i eid now).1.rows =
        st.rows.map (fun row => if row.id == i then
          { row with
              status := ReservationStatus.COMPLETED.value
              updated_at := now } else row)) := by
  unfold complete_reservation
  cases hfind : (visibleRows tenant st).find? (fun r => r.id == i) with
  | none => exact Or.inl rfl
  | some r =>
    have hmem : r ∈ st.rows :=
      List.mem_of_mem_filter (List.mem_of_find?_eq_some hfind)
    have hbeq := List.find?_some hfind
    have hid : r.id = i := eq_of_beq hbeq
    by_cases hguard : (r.status == ReservationStatus.CONFIRMED.value) = true
    case neg =>
      have hg : (r.status == ReservationStatus.CONFIRMED.value) = false := by
        simpa using hguard
      left
      simp only [hg, Bool.not_false, if_true]
    case pos =>
      have hstat : r.status = ReservationStatus.CONFIRMED.value :=
        eq_of_beq hguard
      simp only [hguard, Bool.not_true, Bool.false_eq_true, if_false]
      unfold append appendWithVersion insertEvent
      by_cases hdup : (st.events.any fun e2 => e2.id == eid) = true
      · left
        simp only [hdup, if_true, Except.map]
      · simp only [hdup, Bool.false_eq_true, if_false, Except.map]
        simp only [applyEvent, ofString?_value, lookup_handlers]
        simp only [handleStatusChange, findRow]
        cases hg2 : st.rows.find? (fun r2 => r2.id == i) with
        | none =>
          left
          simp only [hg2]
        | some rr =>
          right
          refine ⟨r, hmem, hid, hstat, ?_⟩
          simp only [hg2, updateRow]

theorem nodup_execCmd (st : DBState) (c : Cmd)
    (h : (st.rows.map (fun r => r.id)).Nodup) :
    ((execCmd st c).rows.map (fun r => r.id)).Nodup := by
  cases c with
  | create tenant input newId eid now =>
    simp only [execCmd]
    rcases create_shape st tenant input newId eid now with hs | ⟨hany, hs⟩
    · rw [hs]; exact h
    · rw [hs, List.map_append, List.nodup_append]
      refine ⟨h, List.nodup_singleton _, ?_⟩
      intro a ha1 ha2
      have ha2' : a = newId := by
        simpa [createdRow] using ha2
      obtain ⟨x, hx, hxa⟩ := List.mem_map.mp ha1
      have := (List.any_eq_false.mp hany) x hx
      apply this
      rw [hxa, ha2']
      exact beq_self_eq_true newId
  | confirm tenant i txn eid now =>
    simp only [execCmd]
    rcases confirm_shape st tenant i txn eid now with hs | ⟨r, _, _, _, hs⟩
    · rw [hs]; exact h
    · rw [hs, map_id_of_update]
      · exact h
      · intro row
        by_cases hx : (row.id == i) = true <;> simp [hx]
  | cancel tenant i reason eid now =>
    simp only [execCmd]
    rcases cancel_shape st tenant i reason eid now with hs | ⟨r, _, _, _, hs⟩
    · rw [hs]; exact h
    · rw [hs, map_id_of_update]
      · exact h
      · intro row
        by_cases hx : (row.id == i) = true <;> simp [hx]
  | complete tenant i eid now =>
    simp only [execCmd]
    rcases complete_shape st tenant i eid now with hs | ⟨r, _, _, _, hs⟩
    · rw [hs]; exact h
    · rw [hs, map_id_of_update]
      · exact h
      · intro row
        by_cases hx : (row.id == i) = true <;> simp [hx]

theorem nodup_foldl_execCmd (cmds : List Cmd) :
    ∀ (st : DBState), (st.rows.map (fun r => r.id)).Nodup →
      ((cmds.foldl execCmd st).rows.map (fun r => r.id)).Nodup := by
  induction cmds with
  | nil => intro st h; exact h
  | cons c cs ih => intro st h; exact ih _ (nodup_execCmd st c h)

theorem nodup_execCmds (cmds : List Cmd) :
    ((execCmds cmds).rows.map (fun r => r.id)).Nodup :=
  nodup_foldl_execCmd cmds emptyDB List.nodup_nil

theorem statusOf_update_rows (st : DBState) (i j : String)
    (f : ReservationModel → ReservationModel)
    (hfid : ∀ row, (f row).id = row.id)
    (hnd : (st.rows.map (fun r => r.id)).Nodup)
    (r : ReservationModel) (hmem : r ∈ st.rows) (hid : r.id = i) :
    ((st.rows.map (fun row => if row.id == i then f row else row)).find?
        (fun x => x.id == j)).map (fun x => x.status) =
      if j = i then some ((f r).status)
      else (st.rows.find? (fun x => x.id == j)).map (fun x => x.status) := by
  have hg : ∀ row, ((fun row => if row.id == i then f row else row) row).id =
      row.id := by
    intro row
    by_cases hx : (row.id == i) = true <;> simp [hx, hfid]
  rw [find?_map_of_id_kept _ _ hg j]
  by_cases hj : j = i
  · subst hj
    rw [if_pos rfl, find?_eq_of_mem_nodup hnd hmem hid]
    have hb : (r.id == j) = true := by simp [hid]
    simp [hb, hid]
  · rw [if_neg hj]
    cases hfr : st.rows.find? (fun x => x.id == j) with
    | none => rfl
    | some rr =>
      have hrrb := List.find?_some hfr
      have hrr : rr.id = j := eq_of_beq hrrb
      have hne : (rr.id == i) = false :=
        beq_eq_false_iff_ne.mpr (fun hh => hj (hrr.symm.trans hh))
      simp [hne, hrr, hj]

theorem legal_execCmd (st : DBState) (c : Cmd) (j : String)
    (hnd : (st.rows.map (fun r => r.id)).Nodup) :
    LegalChange (statusOf st j) (statusOf (execCmd st c) j) := by
  have hso : ∀ (X : DBState), statusOf X j =
      (X.rows.find? (fun x => x.id == j)).map (fun x => x.status) :=
    fun X => rfl
  cases c with
  | create tenant input newId eid now =>
    simp only [execCmd]
    rcases create_shape st tenant input newId eid now with hs | ⟨hany, hs⟩
    · rw [hso st, hso (create_reservation st tenant input newId eid now).1,
        hs]
      exact legalChange_refl _
    · rw [hso st, hso (create_reservation st tenant input newId eid now).1,
        hs, List.find?_append]
      cases hfr : st.rows.find? (fun x => x.id == j) with
      | some r =>
        simp only [Option.or]
        exact legalChange_refl _
      | none =>
        simp only [Option.or]
        by_cases hnj : ((createdRow tenant input newId now).id == j) = true
        · simp only [List.find?_cons, hnj, Option.map_some]
          exact rfl
        · simp [List.find?_cons, hnj, LegalChange]
  | confirm tenant i txn eid now =>
    simp only [execCmd]
    rcases confirm_shape st tenant i txn eid now with
      hs | ⟨r, hmem, hid, hstat, hs⟩
    · rw [hso st, hso (confirm_reservation st tenant i txn eid now).1, hs]
      exact legalChange_refl _
    · rw [hso st, hso (confirm_reservation st tenant i txn eid now).1, hs,
        statusOf_update_rows st i j
          (fun row => { row with
            status := ReservationStatus.CONFIRMED.value
            transaction_id := txnOfPayload txn
            updated_at := now })
          (fun row => rfl) hnd r hmem hid]
      by_cases hj : j = i
      · rw [if_pos hj]
        subst hj
        rw [find?_eq_of_mem_nodup hnd hmem hid]
        simp only [Option.map_some']
        rw [hstat]
        exact Or.inr rfl
      · rw [if_neg hj]
        exact legalChange_refl _
  | cancel tenant i reason eid now =>
    simp only [execCmd]
    rcases cancel_shape st tenant i reason eid now with
      hs | ⟨r, hmem, hid, hstat, hs⟩
    · rw [hso st, hso (cancel_reservation st tenant i reason eid now).1, hs]
      exact legalChange_refl _
    · rw [hso st, hso (cancel_reservation st tenant i reason eid now).1, hs,
        statusOf_update_rows st i j
          (fun row => { row with
            status := ReservationStatus.CANCELLED.value
            updated_at := now })
          (fun row => rfl) hnd r hmem hid]
      by_cases hj : j = i
      · rw [if_pos hj]
        subst hj
        rw [find?_eq_of_mem_nodup hnd hmem hid]
        simp only [Option.map_some']
        rcases hstat with hstat | hstat <;> rw [hstat] <;> exact Or.inr rfl
      · rw [if_neg hj]
        exact legalChange_refl _
  | complete tenant i eid now =>
    simp only [execCmd]
    rcases complete_shape st tenant i eid now with
      hs | ⟨r, hmem, hid, hstat, hs⟩
    · rw [hso st, hso (complete_reservation st tenant i eid now).1, hs]
      exact legalChange_refl _
    · rw [hso st, hso (complete_reservation st tenant i eid now).1, hs,
        statusOf_update_rows st i j
          (fun row => { row with
            status := ReservationStatus.COMPLETED.value
            updated_at := now })
          (fun row => rfl) hnd r hmem hid]
      by_cases hj : j = i
      · rw [if_pos hj]
        subst hj
        rw [find?_eq_of_mem_nodup hnd hmem hid]
        simp only [Option.map_some']
        rw [hstat]
        exact Or.inr rfl
      · rw [if_neg hj]
        exact legalChange_refl _

/-! ### C7 -/

/-- C7: over any sequence of command entry points run from an empty
database, one more command changes a row's observed status only along the
legal edges (pending to confirmed/cancelled/expired, confirmed to
completed/cancelled), possibly creating it as PENDING or leaving it
unchanged; and a row in a terminal status (completed, cancelled, expired)
never changes status again. -/
theorem c7_status_changes_follow_legal_edges :
    ∀ (cmds : List Cmd) (c : Cmd) (j : String),
      LegalChange (statusOf (execCmds cmds) j)
        (statusOf (execCmds (cmds ++ [c])) j) ∧
      (∀ s, isTerminal s = true → statusOf (execCmds cmds) j = some s →
        statusOf (execCmds (cmds ++ [c])) j = some s) := by
  intro cmds c j
  have hexec : execCmds (cmds ++ [c]) = execCmd (execCmds cmds) c := by
    unfold execCmds
    rw [List.foldl_append]
    rfl
  have hnd := nodup_execCmds cmds
  have hstep := legal_execCmd (execCmds cmds) c j hnd
  rw [hexec]
  refine ⟨hstep, ?_⟩
  intro s hterm hcur
  rw [hcur] at hstep
  cases hY : statusOf (execCmd (execCmds cmds) c) j with
  | none =>
    rw [hY] at hstep
    exact hstep.elim
  | some s2 =>
    rw [hY] at hstep
    rcases hstep with h1 | h2
    · rw [h1]
    · rw [terminal_no_edge s hterm s2] at h2
      exact Bool.noConfusion h2

/-- C7 witness: create then cancel leaves the row CANCELLED (terminal); by
the theorem, a subsequent confirm attempt leaves it CANCELLED. -/
theorem c7_status_changes_follow_legal_edges_witness :
    LegalChange (statusOf (execCmds c7Cmds) c7Id)
      (statusOf (execCmds (c7Cmds ++ [Cmd.confirm demoTenant c7Id none 43 2]))
        c7Id) ∧
    statusOf (execCmds (c7Cmds ++ [Cmd.confirm demoTenant c7Id none 43 2]))
      c7Id = some ReservationStatus.CANCELLED.value :=
  ⟨(c7_status_changes_follow_legal_edges c7Cmds
      (Cmd.confirm demoTenant c7Id none 43 2) c7Id).1,
   (c7_status_changes_follow_legal_edges c7Cmds
      (Cmd.confirm demoTenant c7Id none 43 2) c7Id).2
     ReservationStatus.CANCELLED.value rfl rfl⟩

/-! ### C2 -/

/-- C2 counterexample: rebuilding twice with no intervening appends, at
wall-clock instants 10 and then 20, both runs count 2 events but produce
read models that differ field-for-field: `_handle_status_change` stamps
`updated_at` with each run's own `datetime.utcnow()`, so the rows are not
identical (10 vs 20 in `updated_at`). -/
theorem c2_rebuild_not_identical_counterexample :
    ∃ st1 st2 : DBState,
      rebuild_from_events c2Log 10 none = .ok (st1, 2) ∧
      rebuild_from_events st1 20 none = .ok (st2, 2) ∧
      st1.rows ≠ st2.rows :=
  ⟨⟨c2Log.events, [c2RowAt 10]⟩, ⟨c2Log.events, [c2RowAt 20]⟩, rfl, rfl,
    by decide⟩

/-- C2 amended: running `rebuild_from_events` twice in a row with no
intervening appends returns the same event count and read models identical
in every field except `updated_at` (which non-creation handlers stamp with
each run's own clock); with the same clock instant the second run reproduces
the first run's state exactly. -/
theorem c2_rebuild_idempotent_up_to_updated_at :
    ∀ (st : DBState) (t1 t2 : Int) (st1 : DBState) (n1 : Nat),
      rebuild_from_events st t1 none = .ok (st1, n1) →
      ∃ st2, rebuild_from_events st1 t2 none = .ok (st2, n1) ∧
        st2.events = st1.events ∧
        st2.rows.map eraseUpd = st1.rows.map eraseUpd ∧
        (t2 = t1 → st2 = st1) := by
  intro st t1 t2 st1 n1 h
  rw [rebuild_none_eq] at h
  obtain ⟨p2, hf2, hp1ev, hp2ev, hprows, hpc⟩ :=
    foldReplay_bisim t1 t2 _ _ _ rfl rfl rfl (st1, n1) h
  have hst1ev : st1.events = st.events := hp1ev
  have hscope : sortBy (fun a b => a.created_at ≤ b.created_at) st1.events =
      sortBy (fun a b => a.created_at ≤ b.created_at) st.events := by
    rw [hst1ev]
  have hbase : ({ st1 with rows := [] } : DBState) =
      { st with rows := [] } := by
    show DBState.mk st1.events [] = DBState.mk st.events []
    rw [hst1ev]
  have hpc' : p2.2 = n1 := hpc
  refine ⟨p2.1, ?_, ?_, ?_, ?_⟩
  · rw [rebuild_none_eq, hscope, hbase, ← hpc']
    exact hf2
  · exact hp2ev.trans hst1ev.symm
  · exact hprows
  · intro ht
    subst ht
    rw [h] at hf2
    injection hf2 with h3
    rw [← h3]

/-- C2 witness: the amended statement at the concrete two-event log, with
the second run at clock 20 reproducing the first run's count and rows up to
`updated_at`. -/
theorem c2_rebuild_idempotent_up_to_updated_at_witness :
    ∃ st2, rebuild_from_events (⟨c2Log.events, [c2RowAt 10]⟩ : DBState) 20
        none = .ok (st2, 2) ∧
      st2.events = (⟨c2Log.events, [c2RowAt 10]⟩ : DBState).events ∧
      st2.rows.map eraseUpd =
        (⟨c2Log.events, [c2RowAt 10]⟩ : DBState).rows.map eraseUpd ∧
      ((20 : Int) = 10 →
        st2 = (⟨c2Log.events, [c2RowAt 10]⟩ : DBState)) :=
  c2_rebuild_idempotent_up_to_updated_at c2Log 10 20
    ⟨c2Log.events, [c2RowAt 10]⟩ 2 rfl

/-! ### C4 -/

/-- C4: after any sequence of sequential appends, `get_events` with no
starting version lists an aggregate's events in strictly ascending version
order with versions exactly 1..N (the map of versions is `range' 1 N`, N the
list's length: no gaps, no duplicates, starting at 1), and `get_events` with
`from_version = v` is that list's suffix from version v on. -/
theorem c4_get_events_versions_contiguous :
    ∀ (reqs : List AppendReq) (a : String) (v : Nat),
      (get_events (applyAppends reqs).events a none).map (fun e => e.version) =
        List.range' 1 (get_events (applyAppends reqs).events a none).length ∧
      get_events (applyAppends reqs).events a (some v) =
        (get_events (applyAppends reqs).events a none).drop (v - 1) := by
  intro reqs a v
  have hinv := versionsOf_applyAppends reqs a
  have hmap : ((applyAppends reqs).events.filter
        (fun e => e.aggregate_id == a)).map (fun e => e.version) =
      List.range' 1 ((applyAppends reqs).events.filter
        (fun e => e.aggregate_id == a)).length := by
    unfold versionsOf at hinv
    rwa [List.length_map] at hinv
  have hpw : ((applyAppends reqs).events.filter
        (fun e => e.aggregate_id == a)).Pairwise
      (fun x y => (decide (x.version ≤ y.version)) = true) := by
    have h1 : (((applyAppends reqs).events.filter
          (fun e => e.aggregate_id == a)).map
        (fun e => e.version)).Pairwise (· < ·) := by
      rw [hmap]
      exact List.pairwise_lt_range' 1 _
    exact (List.pairwise_map.mp h1).imp
      (fun hlt => decide_eq_true (Nat.le_of_lt hlt))
  have h0 : get_events (applyAppends reqs).events a none =
      (applyAppends reqs).events.filter (fun e => e.aggregate_id == a) :=
    sortBy_of_pairwise _ _ hpw
  refine ⟨?_, ?_⟩
  · rw [h0]
    exact hmap
  · have h1 : get_events (applyAppends reqs).events a (some v) =
        ((applyAppends reqs).events.filter
          (fun e => e.aggregate_id == a)).filter
          (fun e => decide (v ≤ e.version)) :=
      sortBy_of_pairwise _ _
        (List.Pairwise.sublist (List.filter_sublist _) hpw)
    rw [h0, h1, filter_ge_eq_drop _ 1 _ v hmap]

/-! ### C1 -/

/-- C1: the claim's guarantee fails on the code.  Two concurrent `append`
calls for the same aggregate, scheduled so that both `_get_next_version`
reads happen before either write (a schedule the source does not exclude:
no unique constraint on (aggregate_id, version), no lock), both compute
version 1 from the empty store and both events are persisted with version 1
and different primary keys — the same version number twice. -/
theorem c1_race_assigns_duplicate_versions :
    ∃ st, raceState = .ok st ∧
      st.events.map (fun e => (e.aggregate_id, e.version)) =
        [(demoAggregateId, 1), (demoAggregateId, 1)] ∧
      st.events.map (fun e => e.id) = [101, 102] := by
  exact ⟨_, rfl, rfl, rfl⟩

/-! ### C3 -/

/-- C3: under another tenant's session (row-level security modelled from the
spec, see `visibleRows`), none of the query entry points — reservations,
reservation_by_id, reservations_by_user, events_by_reservation — ever
returns an event or read-model row of a different tenant, and
check_availability and reservation_stats give answers independent of the
other tenant's data: every read is scoped to the caller's tenant. -/
theorem c3_queries_are_tenant_isolated :
    ∀ (st : DBState) (tA tB : String), tA ≠ tB →
      (∀ (status user_id : Option String) (limit offset : Nat),
        ∀ r ∈ reservationsQ st tB status user_id limit offset,
          r.tenant_id ≠ tA) ∧
      (∀ (i : String) (r : ReservationModel),
        reservationByIdQ st tB i = some r → r.tenant_id ≠ tA) ∧
      (∀ (u : String) (ic : Bool),
        ∀ r ∈ reservationsByUserQ st tB u ic, r.tenant_id ≠ tA) ∧
      (∀ (rid : String),
        ∀ e ∈ eventsByReservationQ st tB rid, e.tenant_id ≠ tA) ∧
      (∀ (spot : String) (startT dur : Int),
        checkAvailabilityQ st tB spot startT dur =
          checkAvailabilityQ (dropTenant tA st) tB spot startT dur) ∧
      reservationStatsQ st tB = reservationStatsQ (dropTenant tA st) tB := by
  intro st tA tB hAB
  refine ⟨?_, ?_, ?_, ?_, ?_, ?_⟩
  · intro status user_id limit offset r hr
    have h1 : r ∈ sortBy (fun a b => b.created_at ≤ a.created_at)
        (optFilter user_id (fun u r => r.user_id == u)
          (optFilter status (fun s r => r.status == s)
            (visibleRows tB st))) :=
      List.mem_of_mem_drop (List.mem_of_mem_take hr)
    have hB : r.tenant_id = tB :=
      mem_visibleRows (mem_optFilter (mem_optFilter ((mem_sortBy _ _ _).mp h1)))
    exact fun hEq => hAB (hEq.symm.trans hB)
  · intro i r hr
    have hB : r.tenant_id = tB :=
      mem_visibleRows (List.mem_of_find?_eq_some hr)
    exact fun hEq => hAB (hEq.symm.trans hB)
  · intro u ic r hr
    have h1 := (mem_sortBy _ _ _).mp hr
    have hB : r.tenant_id = tB := by
      cases ic with
      | true => exact mem_visibleRows (List.mem_of_mem_filter h1)
      | false =>
        exact mem_visibleRows
          (List.mem_of_mem_filter (List.mem_of_mem_filter h1))
    exact fun hEq => hAB (hEq.symm.trans hB)
  · intro rid e he
    have h1 := (mem_sortBy _ _ _).mp he
    have hB : e.tenant_id = tB :=
      mem_visibleEvents (List.mem_of_mem_filter h1)
    exact fun hEq => hAB (hEq.symm.trans hB)
  · intro spot startT dur
    unfold checkAvailabilityQ overlapConflicts
    rw [visibleRows_dropTenant tA tB hAB]
  · unfold reservationStatsQ
    rw [visibleRows_dropTenant tA tB hAB]

/-- C3 witness: on a database holding one reservation of each of two
concrete tenants, the list query under the first tenant never returns a row
of the second, and the first tenant's statistics are unchanged by deleting
the second tenant's data. -/
theorem c3_queries_are_tenant_isolated_witness :
    (∀ r ∈ reservationsQ twoTenantSt demoTenant none none 100 0,
      r.tenant_id ≠ otherTenant) ∧
    reservationStatsQ twoTenantSt demoTenant =
      reservationStatsQ (dropTenant otherTenant twoTenantSt) demoTenant :=
  ⟨fun r hr =>
    (c3_queries_are_tenant_isolated twoTenantSt otherTenant demoTenant
      (by decide)).1 none none 100 0 r hr,
   (c3_queries_are_tenant_isolated twoTenantSt otherTenant demoTenant
      (by decide)).2.2.2.2.2⟩

/-! ### C5 -/

/-- C5: a `create_reservation` input with non-positive duration, duration
above 24, or negative cost is rejected with one of the three validation
errors and the committed state is unchanged: no event appended, no
read-model row created. -/
theorem c5_validation_rejects_without_side_effects :
    ∀ (st : DBState) (tenant : String) (input : CreateReservationInput)
      (newId : String) (eventId : Nat) (now : Int),
      input.duration_hours ≤ 0 ∨ 24 < input.duration_hours ∨
        input.total_cost < 0 →
      (create_reservation st tenant input newId eventId now).1 = st ∧
      ∃ m, (create_reservation st tenant input newId eventId now).2 = .error m ∧
        (m = "Duration must be positive" ∨
         m = "Maximum reservation duration is 24 hours" ∨
         m = "Total cost cannot be negative") := by
  intro st tenant input newId eventId now h
  unfold create_reservation
  split_ifs with h1 h2 h3
  · exact ⟨rfl, _, rfl, Or.inl rfl⟩
  · exact ⟨rfl, _, rfl, Or.inr (Or.inl rfl)⟩
  · exact ⟨rfl, _, rfl, Or.inr (Or.inr rfl)⟩
  all_goals omega

/-- C5 witness: `create(duration=0)`, `create(duration=25)` and
`create(cost=-1)` are all three rejected with a validation error and leave
the empty database empty. -/
theorem c5_validation_rejects_without_side_effects_witness :
    ((create_reservation emptyDB demoTenant
        { user_id := "u", parking_spot_id := "spot-1", start_time := 0,
          duration_hours := 0, total_cost := 5 } "r1" 1 0).1 = emptyDB ∧
      ∃ m, (create_reservation emptyDB demoTenant
        { user_id := "u", parking_spot_id := "spot-1", start_time := 0,
          duration_hours := 0, total_cost := 5 } "r1" 1 0).2 = .error m ∧
        (m = "Duration must be positive" ∨
         m = "Maximum reservation duration is 24 hours" ∨
         m = "Total cost cannot be negative")) ∧
    ((create_reservation emptyDB demoTenant
        { user_id := "u", parking_spot_id := "spot-1", start_time := 0,
          duration_hours := 25, total_cost := 5 } "r1" 1 0).1 = emptyDB ∧
      ∃ m, (create_reservation emptyDB demoTenant
        { user_id := "u", parking_spot_id := "spot-1", start_time := 0,
          duration_hours := 25, total_cost := 5 } "r1" 1 0).2 = .error m ∧
        (m = "Duration must be positive" ∨
         m = "Maximum reservation duration is 24 hours" ∨
         m = "Total cost cannot be negative")) ∧
    ((create_reservation emptyDB demoTenant
        { user_id := "u", parking_spot_id := "spot-1", start_time := 0,
          duration_hours := 2, total_cost := -1 } "r1" 1 0).1 = emptyDB ∧
      ∃ m, (create_reservation emptyDB demoTenant
        { user_id := "u", parking_spot_id := "spot-1", start_time := 0,
          duration_hours := 2, total_cost := -1 } "r1" 1 0).2 = .error m ∧
        (m = "Duration must be positive" ∨
         m = "Maximum reservation duration is 24 hours" ∨
         m = "Total cost cannot be negative")) :=
  ⟨c5_validation_rejects_without_side_effects _ _ _ _ _ _ (Or.inl (by decide)),
   c5_validation_rejects_without_side_effects _ _ _ _ _ _
     (Or.inr (Or.inl (by decide))),
   c5_validation_rejects_without_side_effects _ _ _ _ _ _
     (Or.inr (Or.inr (by decide)))⟩

/-! ### C6 -/

/-- C6 counterexample: a create request overlapping the PENDING reservation
`demoRow` on the same spot is rejected before any append (the state is
unchanged), but the error the caller receives is the conflict-count message,
which does not carry the overlapping reservation's id — the claim's "error
carries the set of conflicting reservation ids" fails. -/
theorem c6_conflict_error_lacks_ids_counterexample :
    (create_reservation demoSt demoTenant demoOverlapInput
        "cccccccc-0000-0000-0000-000000000001" 11 3).1 = demoSt ∧
    (create_reservation demoSt demoTenant demoOverlapInput
        "cccccccc-0000-0000-0000-000000000001" 11 3).2 =
      .error (conflictMessage 1) ∧
    strContains (conflictMessage 1) demoRow.id = false := by
  exact ⟨rfl, rfl, by decide⟩

/-- C6 amended: a create request whose window overlaps an existing PENDING
or CONFIRMED reservation of the same spot (and passes the input validations)
is rejected before any event is appended, with an error reporting the number
of conflicting reservations (not their ids). -/
theorem c6_conflict_rejected_before_append_with_count :
    ∀ (st : DBState) (tenant : String) (input : CreateReservationInput)
      (newId : String) (eventId : Nat) (now : Int),
      0 < input.duration_hours → input.duration_hours ≤ 24 →
      0 ≤ input.total_cost →
      overlapConflicts st tenant input.parking_spot_id input.start_time
        (input.start_time + input.duration_hours) ≠ [] →
      create_reservation st tenant input newId eventId now =
        (st, .error (conflictMessage
          (overlapConflicts st tenant input.parking_spot_id input.start_time
            (input.start_time + input.duration_hours)).length)) := by
  intro st tenant input newId eventId now h1 h2 h3 hc
  have hne : (overlapConflicts st tenant input.parking_spot_id input.start_time
      (input.start_time + input.duration_hours)).isEmpty = false := by
    cases h : overlapConflicts st tenant input.parking_spot_id input.start_time
      (input.start_time + input.duration_hours) with
    | nil => exact absurd h hc
    | cons a l => rfl
  unfold create_reservation
  split_ifs with g1 g2 g3
  · omega
  · omega
  · omega
  · simp only [hne, Bool.not_false, if_true]

/-- C6 witness: the amended statement at the concrete overlap scenario. -/
theorem c6_conflict_rejected_before_append_with_count_witness :
    create_reservation demoSt demoTenant demoOverlapInput
        "cccccccc-0000-0000-0000-000000000001" 11 3 =
      (demoSt, .error (conflictMessage
        (overlapConflicts demoSt demoTenant demoOverlapInput.parking_spot_id
          demoOverlapInput.start_time
          (demoOverlapInput.start_time + demoOverlapInput.duration_hours)).length)) :=
  c6_conflict_rejected_before_append_with_count demoSt demoTenant
    demoOverlapInput "cccccccc-0000-0000-0000-000000000001" 11 3
    (by decide) (by decide) (by decide) (by decide)

/-! ### C9 -/

/-- C9 counterexample: with the database failing, `get_reservation_stats`
returns a successful all-zero statistics response, identical to its answer
for a healthy empty database — the internal failure is swallowed, not
propagated as a distinguishable failure. -/
theorem c9_stats_swallows_failure_counterexample :
    get_reservation_stats (.error "connection refused") none =
      { total_reservations := 0, active_reservations := 0,
        pending_reservations := 0, completed_reservations := 0 } ∧
    get_reservation_stats (.ok emptyDB) none =
      { total_reservations := 0, active_reservations := 0,
        pending_reservations := 0, completed_reservations := 0 } :=
  ⟨rfl, rfl⟩

/-- C9 amended: the stats entry point converts every internal failure into a
successful zero-count response, indistinguishable from the response for a
tenant with no reservations. -/
theorem c9_stats_zero_on_any_failure :
    ∀ (m : String) (headerTenant : Option String),
      get_reservation_stats (.error m) headerTenant =
        { total_reservations := 0, active_reservations := 0,
          pending_reservations := 0, completed_reservations := 0 } ∧
      get_reservation_stats (.error m) headerTenant =
        get_reservation_stats (.ok emptyDB) headerTenant := by
  intro m headerTenant
  exact ⟨rfl, rfl⟩

/-! ### C10 -/

/-- C10: the dispatch dictionary has an entry for every member of the
event-type enumeration, so `apply_event` on an event whose type string is in
the enumeration always runs the looked-up handler (the "No handler" fallback
is unreachable), and on a string outside the enumeration it raises. -/
theorem c10_dispatch_is_total :
    ∀ (st : DBState) (now : Int) (e : EventModel),
      (∀ et, EventType.ofString? e.event_type = some et →
        ∃ h, handlers.lookup et = some h ∧ applyEvent st now e = h st now e) ∧
      (EventType.ofString? e.event_type = none →
        ∃ m, applyEvent st now e = .error m) := by
  intro st now e
  constructor
  · intro et het
    cases et <;> exact ⟨_, rfl, by rw [applyEvent, het]; rfl⟩
  · intro hnone
    exact ⟨_, by rw [applyEvent, hnone]⟩

/-- C10 witness: at a concrete RESERVATION_EXPIRED event the lookup finds a
handler and `apply_event` runs it; at a concrete event of type "UNKNOWN" the
coercion raises. -/
theorem c10_dispatch_is_total_witness :
    (∃ h, handlers.lookup EventType.RESERVATION_EXPIRED = some h ∧
      applyEvent emptyDB 0
        { id := 7, aggregate_id := demoAggregateId,
          event_type := "RESERVATION_EXPIRED", version := 1, data := {},
          tenant_id := demoTenant, created_at := 0 } =
      h emptyDB 0
        { id := 7, aggregate_id := demoAggregateId,
          event_type := "RESERVATION_EXPIRED", version := 1, data := {},
          tenant_id := demoTenant, created_at := 0 }) ∧
    (∃ m, applyEvent emptyDB 0
        { id := 8, aggregate_id := demoAggregateId, event_type := "UNKNOWN",
          version := 1, data := {}, tenant_id := demoTenant,
          created_at := 0 } = .error m) :=
  ⟨(c10_dispatch_is_total emptyDB 0
      { id := 7, aggregate_id := demoAggregateId,
        event_type := "RESERVATION_EXPIRED", version := 1, data := {},
        tenant_id := demoTenant, created_at := 0 }).1
      EventType.RESERVATION_EXPIRED (by decide),
   (c10_dispatch_is_total emptyDB 0
      { id := 8, aggregate_id := demoAggregateId, event_type := "UNKNOWN",
        version := 1, data := {}, tenant_id := demoTenant,
        created_at := 0 }).2 (by decide)⟩

end Reservation
